import Mathlib

/-!
# simple-computer: the keyboard peripheral (`io/keyboard.go`)

A shallow embedding of `KeyboardAdapter` and `Keyboard` from `io/keyboard.go`.

The adapter is a value of type `KeyboardAdapter`; every Go pointer field is an `Option`
(`none` is the nil pointer) and the contents of the buses the adapter points to are stored
in the state itself.  A method that mutates its receiver becomes a function returning the
new state; a method that would dereference a nil pointer returns `none`.

The packages `circuit` and `components` (gates, `Bit`, `Register`, `Bus`, `IOBus`) are
imported by `io/keyboard.go` but their sources are not part of the development; they are
modelled from the specification (sections 4.1 to 4.3) and marked as such.
-/

namespace SimpleComputer

/-! ## Package `circuit` -/

namespace circuit

/-- Modelled from the spec: `circuit.NOTGate` (source missing).  Section 4.1: `update`
recomputes the output as the boolean function of the current inputs, `output` returns the
last computed value. -/
structure NOTGate where
  output : Bool
  deriving DecidableEq, Repr

/-- Modelled from the spec: `circuit.NewNOTGate`.  Section 4.1 leaves the output of a gate
undefined before any update and the constructor is not part of the source, so the output
a new gate shows is a parameter. -/
def NewNOTGate (output : Bool) : NOTGate := ⟨output⟩

/-- Modelled from the spec: `NOTGate.Update`, the negation of its input. -/
def NOTGate.Update (g : NOTGate) (a : Bool) : NOTGate := { g with output := !a }

/-- Modelled from the spec: `NOTGate.Output`, the last computed value. -/
def NOTGate.Output (g : NOTGate) : Bool := g.output

/-- Modelled from the spec: `circuit.ANDGate` (source missing), the two-input AND of
section 4.1. -/
structure ANDGate where
  output : Bool
  deriving DecidableEq, Repr

/-- Modelled from the spec: `circuit.NewANDGate`; the output shown before any update
(undefined in section 4.1) is a parameter. -/
def NewANDGate (output : Bool) : ANDGate := ⟨output⟩

/-- Modelled from the spec: `ANDGate.Update`, the conjunction of its two inputs. -/
def ANDGate.Update (g : ANDGate) (a b : Bool) : ANDGate := { g with output := a && b }

/-- Modelled from the spec: `ANDGate.Output`, the last computed value. -/
def ANDGate.Output (g : ANDGate) : Bool := g.output

end circuit

/-! ## Package `components` -/

namespace components

/-- Modelled from the spec: `components.ANDGate3` (source missing), the three-input AND
composite of section 4.1. -/
structure ANDGate3 where
  output : Bool
  deriving DecidableEq, Repr

/-- Modelled from the spec: `components.NewANDGate3`; the output shown before any update
(undefined in section 4.1) is a parameter. -/
def NewANDGate3 (output : Bool) : ANDGate3 := ⟨output⟩

/-- Modelled from the spec: `ANDGate3.Update`, true iff all three inputs are true. -/
def ANDGate3.Update (g : ANDGate3) (a b c : Bool) : ANDGate3 :=
  { g with output := a && b && c }

/-- Modelled from the spec: `ANDGate3.Output`, the last computed value. -/
def ANDGate3.Output (g : ANDGate3) : Bool := g.output

/-- Modelled from the spec: `components.ANDGate8` (source missing), the eight-input AND
composite of sections 4.1 and 8 ("true iff all 8 inputs are true"). -/
structure ANDGate8 where
  output : Bool
  deriving DecidableEq, Repr

/-- Modelled from the spec: `components.NewANDGate8`; the output shown before any update
(undefined in section 4.1) is a parameter. -/
def NewANDGate8 (output : Bool) : ANDGate8 := ⟨output⟩

/-- Modelled from the spec: `ANDGate8.Update`, true iff all eight inputs are true. -/
def ANDGate8.Update (g : ANDGate8) (a b c d e f x y : Bool) : ANDGate8 :=
  { g with output := a && b && c && d && e && f && x && y }

/-- Modelled from the spec: `ANDGate8.Output`, the last computed value. -/
def ANDGate8.Output (g : ANDGate8) : Bool := g.output

/-- Modelled from the spec: `components.Bit` (source missing), the one-bit latch of
section 4.2.  The adapter only uses the two-argument `Update(value, set)`, so the reset
line of the spec is never asserted and is not part of the model. -/
structure Bit where
  value : Bool
  deriving DecidableEq, Repr

/-- Modelled from the spec: `components.NewBit`. -/
def NewBit : Bit := ⟨false⟩

/-- Modelled from the spec: `Bit.Update(value, set)`.  Section 8, bit latch law:
`update(value, false)` never changes the stored output, `update(value, true)` sets the
stored output to `value`. -/
def Bit.Update (b : Bit) (value set : Bool) : Bit :=
  if set then { b with value := value } else b

/-- Modelled from the spec: `Bit.Get`, the stored output. -/
def Bit.Get (b : Bit) : Bool := b.value

/-- Modelled from the spec: `components.Bus` (source missing), section 3: `n` wires. -/
structure Bus (width : Nat) where
  wires : Fin width → Bool

/-- Modelled from the spec: `components.NewBus(width)`; all wires start unasserted. -/
def NewBus (width : Nat) : Bus width := ⟨fun _ => false⟩

/-- Modelled from the spec: `Bus.GetOutputWire(i)`, section 4.3: "`wire(i)` read of bit
i".  It reads the wires of its receiver, so on an unset (nil) bus reference the call fails
(section 7, WiringError); callers holding an `Option (Bus width)` render that failure as
`none`. -/
def Bus.GetOutputWire {width : Nat} (b : Bus width) (index : Fin width) : Bool :=
  b.wires index

/-- Modelled from the spec: `Bus.SetValue(word)`, section 4.3.  The word replaces the
whole content of the bus; wire `i` carries bit `i` of the word ("`wire(i)` read of bit
i"). -/
def Bus.SetValue {width : Nat} (_b : Bus width) (value : Nat) : Bus width :=
  ⟨fun i => value.testBit i.val⟩

/-- The number whose binary digits are `w 0, ..., w (k-1)`. -/
def bitsToNat (w : Nat → Bool) : Nat → Nat
  | 0 => 0
  | k + 1 => bitsToNat w k + (if w k then 2 ^ k else 0)

/-- The word carried by a bus: the number whose bit `i` is wire `i` (the reading that
inverts `Bus.SetValue`). -/
def Bus.toNat {width : Nat} (b : Bus width) : Nat :=
  bitsToNat (fun i => if h : i < width then b.wires ⟨i, h⟩ else false) width

/-- The named control lines of the IOBus (the constants `components.CLOCK_SET`,
`components.CLOCK_ENABLE`, `components.MODE`, `components.DATA_OR_ADDRESS`). -/
inductive IOLine where
  | CLOCK_SET
  | CLOCK_ENABLE
  | MODE
  | DATA_OR_ADDRESS
  deriving DecidableEq, Repr

/-- Modelled from the spec: `components.IOBus` (source missing), section 3: the named
control lines CLOCK_SET, CLOCK_ENABLE, MODE and DATA_OR_ADDRESS.  The adapter reads
nothing else from it. -/
structure IOBus where
  clockSet : Bool
  clockEnable : Bool
  mode : Bool
  dataOrAddress : Bool
  deriving DecidableEq, Repr

/-- Modelled from the spec: `IOBus.GetOutputWire(line)`, the current value of a named
control line. -/
def IOBus.GetOutputWire (b : IOBus) : IOLine → Bool
  | .CLOCK_SET => b.clockSet
  | .CLOCK_ENABLE => b.clockEnable
  | .MODE => b.mode
  | .DATA_OR_ADDRESS => b.dataOrAddress

/-- Modelled from the spec: `components.Register` (source missing), section 3: "n Bits +
{captureArmed, driveEnabled} flags".  The two buses it is wired to are passed to `Update`
explicitly. -/
structure Register (width : Nat) where
  name : String
  bits : Fin width → Bit
  set : Bool
  enable : Bool

/-- Modelled from the spec: `components.NewRegister(name, inputBus, outputBus)`. -/
def NewRegister (width : Nat) (name : String) : Register width :=
  ⟨name, fun _ => NewBit, false, false⟩

/-- Modelled from the spec: `Register.Set`, the spec's `arm()`. -/
def Register.Set {width : Nat} (r : Register width) : Register width :=
  { r with set := true }

/-- Modelled from the spec: `Register.Unset`, the spec's `disarm()`. -/
def Register.Unset {width : Nat} (r : Register width) : Register width :=
  { r with set := false }

/-- Modelled from the spec: `Register.Enable`, the spec's `enable()`. -/
def Register.Enable {width : Nat} (r : Register width) : Register width :=
  { r with enable := true }

/-- Modelled from the spec: `Register.Disable`, the spec's `disable()`. -/
def Register.Disable {width : Nat} (r : Register width) : Register width :=
  { r with enable := false }

/-- Modelled from the spec: `Register.Update`, section 4.3: "if armed, latches current bus
value into its Bits; if enabled, asserts its stored value onto the bus".  Returns the new
register and the new content of the output bus; with the drive off the output bus keeps
its content (section 4.5). -/
def Register.Update {width : Nat} (r : Register width) (inputBus outputBus : Bus width) :
    Register width × Bus width :=
  let r1 : Register width :=
    { r with bits := fun i => (r.bits i).Update (inputBus.GetOutputWire i) r.set }
  let out : Bus width := if r1.enable then ⟨fun i => (r1.bits i).Get⟩ else outputBus
  (r1, out)

end components

open circuit components

/-! ## `io/keyboard.go` -/

/-- The constant `BUS_WIDTH`. -/
abbrev BUS_WIDTH : Nat := 16

/-- The struct `KeyPress`; `Value` is a Go `int`. -/
structure KeyPress where
  Value : Int
  IsDown : Bool
  deriving DecidableEq, Repr

/-- The struct `KeyboardAdapter`.  `ioBus`, `mainBus` and `memoryBit` are pointers that
are nil until `Connect`; `KeyboardInBus` is allocated by `NewKeyboardAdapter`. -/
structure KeyboardAdapter where
  KeyboardInBus : Bus BUS_WIDTH
  ioBus : Option IOBus
  mainBus : Option (Bus BUS_WIDTH)
  memoryBit : Option Bit
  keycodeRegister : Register BUS_WIDTH
  andGate1 : ANDGate8
  notGatesForAndGate1 : Fin 4 → NOTGate
  andGate2 : ANDGate3
  andGate3 : ANDGate3
  notGatesForAndGate3 : Fin 2 → NOTGate
  andGate4 : ANDGate

/-- The function `NewKeyboardAdapter`: `new(KeyboardAdapter)` zeroes every field, then
the keyboard-side bus is allocated. -/
def NewKeyboardAdapter : KeyboardAdapter where
  KeyboardInBus := NewBus BUS_WIDTH
  ioBus := none
  mainBus := none
  memoryBit := none
  keycodeRegister := ⟨"", fun _ => ⟨false⟩, false, false⟩
  andGate1 := ⟨false⟩
  notGatesForAndGate1 := fun _ => ⟨false⟩
  andGate2 := ⟨false⟩
  andGate3 := ⟨false⟩
  notGatesForAndGate3 := fun _ => ⟨false⟩
  andGate4 := ⟨false⟩

/-- The outputs that the ten gates made by `Connect` show before their first update.
The constructors (`circuit.NewANDGate` and the like) are not part of the source and
section 4.1 leaves the output of a gate undefined before any update, so these values are
taken as a parameter of `Connect`. -/
structure NewGateOutputs where
  andGate1 : Bool
  andGate2 : Bool
  andGate3 : Bool
  andGate4 : Bool
  notGatesForAndGate1 : Fin 4 → Bool
  notGatesForAndGate3 : Fin 2 → Bool

/-- The method `KeyboardAdapter.Connect`; `fresh` holds the outputs of the new gates
before their first update. -/
def KeyboardAdapter.Connect (k : KeyboardAdapter) (ioBus : IOBus)
    (mainBus : Bus BUS_WIDTH) (fresh : NewGateOutputs) : KeyboardAdapter :=
  { k with
    ioBus := some ioBus
    mainBus := some mainBus
    memoryBit := some ((NewBit.Update false true).Update false false)
    andGate1 := NewANDGate8 fresh.andGate1
    andGate2 := NewANDGate3 fresh.andGate2
    andGate3 := NewANDGate3 fresh.andGate3
    andGate4 := NewANDGate fresh.andGate4
    keycodeRegister := NewRegister BUS_WIDTH "KCR"
    notGatesForAndGate1 := fun i => NewNOTGate (fresh.notGatesForAndGate1 i)
    notGatesForAndGate3 := fun i => NewNOTGate (fresh.notGatesForAndGate3 i) }

/-- The method `KeyboardAdapter.update`: the address-decode network, the memory bit and
the read-enable gate.  `none` is a nil-pointer dereference. -/
def KeyboardAdapter.update (k : KeyboardAdapter) : Option KeyboardAdapter := do
  let mainBus ← k.mainBus
  let n0 := (k.notGatesForAndGate1 0).Update (mainBus.GetOutputWire 8)
  let n1 := (k.notGatesForAndGate1 1).Update (mainBus.GetOutputWire 9)
  let n2 := (k.notGatesForAndGate1 2).Update (mainBus.GetOutputWire 10)
  let n3 := (k.notGatesForAndGate1 3).Update (mainBus.GetOutputWire 11)
  let notGates1 :=
    Function.update (Function.update (Function.update (Function.update
      k.notGatesForAndGate1 0 n0) 1 n1) 2 n2) 3 n3
  let andGate1 := k.andGate1.Update
    (notGates1 0).Output
    (notGates1 1).Output
    (notGates1 2).Output
    (notGates1 3).Output
    (mainBus.GetOutputWire 12)
    (mainBus.GetOutputWire 13)
    (mainBus.GetOutputWire 14)
    (mainBus.GetOutputWire 15)
  let ioBus ← k.ioBus
  let andGate2 := k.andGate2.Update
    (ioBus.GetOutputWire IOLine.CLOCK_SET)
    (ioBus.GetOutputWire IOLine.DATA_OR_ADDRESS)
    (ioBus.GetOutputWire IOLine.MODE)
  let memoryBit0 ← k.memoryBit
  let memoryBit := memoryBit0.Update andGate1.Output andGate2.Output
  let m0 := (k.notGatesForAndGate3 0).Update (ioBus.GetOutputWire IOLine.DATA_OR_ADDRESS)
  let m1 := (k.notGatesForAndGate3 1).Update (ioBus.GetOutputWire IOLine.MODE)
  let notGates3 := Function.update (Function.update k.notGatesForAndGate3 0 m0) 1 m1
  let andGate3 := k.andGate3.Update
    (ioBus.GetOutputWire IOLine.CLOCK_ENABLE)
    (notGates3 0).Output
    (notGates3 1).Output
  let andGate4 := k.andGate4.Update memoryBit.Get andGate3.Output
  pure { k with
    notGatesForAndGate1 := notGates1
    andGate1 := andGate1
    andGate2 := andGate2
    memoryBit := some memoryBit
    notGatesForAndGate3 := notGates3
    andGate3 := andGate3
    andGate4 := andGate4 }

/-- The method `KeyboardAdapter.updateKeycodeReg`.  The keycode register is wired from
`KeyboardInBus` to the main bus; `none` is a nil-pointer dereference (the register has no
output bus). -/
def KeyboardAdapter.updateKeycodeReg (k : KeyboardAdapter) : Option KeyboardAdapter :=
  if k.andGate4.Output then do
    let mainBus0 ← k.mainBus
    let r1 := k.keycodeRegister.Set
    let r2 := r1.Enable
    let u1 := r2.Update k.KeyboardInBus mainBus0
    let r3 := u1.1.Disable
    -- clear the register once everything is out
    let keyboardInBus := k.KeyboardInBus.SetValue 0x00
    let u2 := r3.Update keyboardInBus u1.2
    let r4 := u2.1.Unset
    let u3 := r4.Update keyboardInBus u2.2
    pure { k with
      keycodeRegister := u3.1
      KeyboardInBus := keyboardInBus
      mainBus := some u3.2 }
  else
    pure k

/-- The method `KeyboardAdapter.Update`: the keycode-register step, then the decode
step. -/
def KeyboardAdapter.Update (k : KeyboardAdapter) : Option KeyboardAdapter := do
  let k1 ← k.updateKeycodeReg
  k1.update

/-- The signal computed by the four NOT gates and `andGate1` in `update` from the main-bus
wires 8 to 15 (the inputs of `andGate1`, in the order of the call). -/
def addressMatch (mainBus : Bus BUS_WIDTH) : Bool :=
  !mainBus.wires 8 && !mainBus.wires 9 && !mainBus.wires 10 && !mainBus.wires 11 &&
    mainBus.wires 12 && mainBus.wires 13 && mainBus.wires 14 && mainBus.wires 15

/-- The signal computed by `andGate2` in `update` from the IOBus lines (the set line of
the memory bit). -/
def selectSignal (ioBus : IOBus) : Bool :=
  ioBus.clockSet && ioBus.dataOrAddress && ioBus.mode

/-- The signal computed by the two NOT gates and `andGate3` in `update` from the IOBus
lines. -/
def readSignal (ioBus : IOBus) : Bool :=
  ioBus.clockEnable && !ioBus.dataOrAddress && !ioBus.mode

/-- Another component (the control unit) asserting the control lines of the shared IOBus
between two updates of the adapter. -/
def KeyboardAdapter.setIOBus (k : KeyboardAdapter) (ioBus : IOBus) : KeyboardAdapter :=
  { k with ioBus := k.ioBus.map fun _ => ioBus }

/-- Another component (the CPU) asserting a word onto the shared main bus between two
updates of the adapter. -/
def KeyboardAdapter.setMainBus (k : KeyboardAdapter) (mainBus : Bus BUS_WIDTH) :
    KeyboardAdapter :=
  { k with mainBus := k.mainBus.map fun _ => mainBus }

/-- The keyboard writing `KeyboardInBus` between two updates of the adapter. -/
def KeyboardAdapter.setKeyboardInBus (k : KeyboardAdapter) (bus : Bus BUS_WIDTH) :
    KeyboardAdapter :=
  { k with KeyboardInBus := bus }

/-- One tick seen from the adapter: the control lines of the IOBus are asserted, then
`Update` runs. -/
def KeyboardAdapter.tick (k : KeyboardAdapter) (ioBus : IOBus) : Option KeyboardAdapter :=
  (k.setIOBus ioBus).Update

/-- The adapter states reachable from `Connect` through `Update` calls, with the other
components writing the three buses at will between the calls and the new gates showing
any outputs.  The flag tells whether `Update` has run at least once since `Connect`. -/
inductive KeyboardAdapter.Reachable : Bool → KeyboardAdapter → Prop where
  | connect (keyboardInBus : Bus BUS_WIDTH) (ioBus : IOBus) (mainBus : Bus BUS_WIDTH)
      (fresh : NewGateOutputs) :
      Reachable false
        ((NewKeyboardAdapter.setKeyboardInBus keyboardInBus).Connect ioBus mainBus fresh)
  | setIOBus (updated : Bool) (k : KeyboardAdapter) (ioBus : IOBus) :
      Reachable updated k → Reachable updated (k.setIOBus ioBus)
  | setMainBus (updated : Bool) (k : KeyboardAdapter) (mainBus : Bus BUS_WIDTH) :
      Reachable updated k → Reachable updated (k.setMainBus mainBus)
  | setKeyboardInBus (updated : Bool) (k : KeyboardAdapter) (bus : Bus BUS_WIDTH) :
      Reachable updated k → Reachable updated (k.setKeyboardInBus bus)
  | update (updated : Bool) (k k1 : KeyboardAdapter) :
      Reachable updated k → k.Update = some k1 → Reachable true k1

/-- The IOBus lines of the address phase of the keyboard scenario of section 8:
CLOCK_SET=1, DATA_OR_ADDRESS=0, MODE=0. -/
def scenarioAddressPhase : IOBus :=
  { clockSet := true, clockEnable := false, mode := false, dataOrAddress := false }

/-- The IOBus lines of the data phase of the keyboard scenario of section 8:
CLOCK_ENABLE=1, DATA_OR_ADDRESS=0, MODE=0. -/
def scenarioDataPhase : IOBus :=
  { clockSet := false, clockEnable := true, mode := false, dataOrAddress := false }

/-- The IOBus lines on which the decode network latches the memory bit: CLOCK_SET=1,
DATA_OR_ADDRESS=1, MODE=1. -/
def selectLines : IOBus :=
  { clockSet := true, clockEnable := false, mode := true, dataOrAddress := true }

/-- A main-bus word seen as the adapter's address by the decode network: wires 8 to 11
false, wires 12 to 15 true (the other wires are false here). -/
def keyboardAddress : Bus BUS_WIDTH := ⟨fun i => decide (12 ≤ i.val)⟩

/-- New gates that all show the output false before their first update. -/
def gatesOff : NewGateOutputs :=
  { andGate1 := false, andGate2 := false, andGate3 := false, andGate4 := false,
    notGatesForAndGate1 := fun _ => false, notGatesForAndGate3 := fun _ => false }

/-- New gates of which `andGate4` shows the output true before its first update. -/
def readEnableOn : NewGateOutputs := { gatesOff with andGate4 := true }

/-- A freshly connected adapter whose new gates show the output false: all IOBus lines
and main-bus wires unasserted, and a pending key code on `KeyboardInBus`. -/
def freshAdapter (code : Nat) : KeyboardAdapter :=
  (NewKeyboardAdapter.Connect
    { clockSet := false, clockEnable := false, mode := false, dataOrAddress := false }
    (NewBus BUS_WIDTH) gatesOff).setKeyboardInBus ((NewBus BUS_WIDTH).SetValue code)

/-- A freshly connected adapter whose new `andGate4` shows the output true: all IOBus
lines and main-bus wires unasserted, and a pending key code on `KeyboardInBus`. -/
def freshAdapterGateOn (code : Nat) : KeyboardAdapter :=
  (NewKeyboardAdapter.Connect
    { clockSet := false, clockEnable := false, mode := false, dataOrAddress := false }
    (NewBus BUS_WIDTH) readEnableOn).setKeyboardInBus ((NewBus BUS_WIDTH).SetValue code)

/-- The IOBus with no control line asserted. -/
def idleLines : IOBus :=
  { clockSet := false, clockEnable := false, mode := false, dataOrAddress := false }

/-- The adapter after it has been addressed: a freshly connected adapter with a pending
key code, ticked once with the address word on the main bus and CLOCK_SET=1,
DATA_OR_ADDRESS=1, MODE=1 on the IOBus. -/
def addressedAdapter (code : Nat) : Option KeyboardAdapter :=
  ((freshAdapter code).setMainBus keyboardAddress).tick selectLines

/-- The adapter after it has been addressed and asked to put its data on the bus: the
addressed adapter ticked once more with CLOCK_ENABLE=1, DATA_OR_ADDRESS=0, MODE=0.  The
alternative of `getD` is never taken. -/
def selectedAdapter (code : Nat) : KeyboardAdapter :=
  ((addressedAdapter code).bind fun k => k.tick scenarioDataPhase).getD NewKeyboardAdapter

/-- The address word with main-bus wires 0 to 7 asserted as well. -/
def keyboardAddressLowSet : Bus BUS_WIDTH :=
  ⟨fun i => decide (12 ≤ i.val) || decide (i.val < 8)⟩

/-- The struct `Keyboard`.  `outBus` is a pointer that is nil until `ConnectTo`; the two
channels belong to the environment and appear as the input of `Run`. -/
structure Keyboard where
  outBus : Option (Bus BUS_WIDTH)

/-- The function `NewKeyboard`. -/
def NewKeyboard : Keyboard := ⟨none⟩

/-- The method `Keyboard.ConnectTo`. -/
def Keyboard.ConnectTo (k : Keyboard) (bus : Bus BUS_WIDTH) : Keyboard :=
  { k with outBus := some bus }

/-- Go's conversion `uint16(x)` of an `int`: the low 16 bits of the two's complement
representation. -/
def uint16 (x : Int) : Nat := (x % 65536).toNat

/-- What the `select` of `Keyboard.Run` received at one clock tick: a value from the
`quit` channel or a key press from `keyPressChannel` (the pointer received is taken to be
non-nil). -/
inductive Selected where
  | quit
  | key (key : KeyPress)
  deriving DecidableEq, Repr

/-- The body of `case key := <-k.keyPressChannel` in `Keyboard.Run`; `none` is a
nil-pointer dereference (`SetValue` on an unconnected `outBus`). -/
def Keyboard.onKey (k : Keyboard) (key : KeyPress) : Option Keyboard :=
  if key.IsDown then do
    let outBus ← k.outBus
    pure { k with outBus := some (outBus.SetValue (uint16 key.Value)) }
  else
    pure k

/-- How far `Keyboard.Run` got on a finite sequence of ticks. -/
inductive RunResult where
  /-- every tick was served and the loop waits for the next one -/
  | waiting (k : Keyboard)
  /-- the quit signal was received and `Run` returned -/
  | returned (k : Keyboard)
  /-- a nil pointer was dereferenced -/
  | panicked

/-- The method `Keyboard.Run`, as a function of what the `select` receives tick after
tick. -/
def Keyboard.Run (k : Keyboard) : List Selected → RunResult
  | [] => RunResult.waiting k
  | Selected.quit :: _ => RunResult.returned k
  | Selected.key key :: rest =>
    match k.onKey key with
    | some k1 => Keyboard.Run k1 rest
    | none => RunResult.panicked

/-- The `select` statement of `Keyboard.Run` at one tick.  `quitReady` tells whether a
value is waiting on the `quit` channel, `pending` is the queue of `keyPressChannel`
(oldest event first) and `preferQuit` is the choice of the Go runtime when both cases are
ready.  The result is the value received together with the queue after the receive;
`none` means that neither case is ready, so the `select`, which has no default case,
blocks. -/
def Keyboard.select (quitReady preferQuit : Bool) (pending : List KeyPress) :
    Option (Selected × List KeyPress) :=
  match pending with
  | [] => if quitReady then some (Selected.quit, []) else none
  | key :: rest =>
    if quitReady && preferQuit then some (Selected.quit, key :: rest)
    else some (Selected.key key, rest)

/-- The outcome of one iteration of the loop of `Keyboard.Run`, with the keyboard and the
queue of `keyPressChannel` it leaves. -/
inductive TickResult where
  /-- the iteration is over and the loop waits for the next clock tick -/
  | waiting (k : Keyboard) (pending : List KeyPress)
  /-- the `select` blocks: nothing is ready on either channel -/
  | blocked (k : Keyboard) (pending : List KeyPress)
  /-- the quit signal was received and `Run` returned -/
  | returned (k : Keyboard) (pending : List KeyPress)
  /-- a nil pointer was dereferenced -/
  | panicked

/-- One iteration of the loop of `Keyboard.Run` after the clock tick has been received:
the `select` and the branch it takes. -/
def Keyboard.tick (k : Keyboard) (quitReady preferQuit : Bool) (pending : List KeyPress) :
    TickResult :=
  match Keyboard.select quitReady preferQuit pending with
  | none => TickResult.blocked k pending
  | some (Selected.quit, pending1) => TickResult.returned k pending1
  | some (Selected.key key, pending1) =>
    match k.onKey key with
    | some k1 => TickResult.waiting k1 pending1
    | none => TickResult.panicked

/-- The loop of `Keyboard.Run` over a sequence of clock ticks, each with the state of the
`quit` channel and the choice of the runtime at that tick; no key press arrives
meanwhile.  The loop goes on as long as an iteration ends waiting for the next tick. -/
def Keyboard.runTicks (k : Keyboard) (pending : List KeyPress) :
    List (Bool × Bool) → TickResult
  | [] => TickResult.waiting k pending
  | (quitReady, preferQuit) :: rest =>
    match k.tick quitReady preferQuit pending with
    | TickResult.waiting k1 pending1 => Keyboard.runTicks k1 pending1 rest
    | r => r

/-- The variable `up_key_presses`: the slice literal of lines 158 to 1182, entry by entry
in source order (eight entries per line here). -/
def up_key_presses : List KeyPress :=
  [
    KeyPress.mk 1 false, KeyPress.mk 2 false, KeyPress.mk 3 false, KeyPress.mk 4 false, KeyPress.mk 5 false, KeyPress.mk 6 false, KeyPress.mk 7 false, KeyPress.mk 8 false,
    KeyPress.mk 9 false, KeyPress.mk 10 false, KeyPress.mk 11 false, KeyPress.mk 12 false, KeyPress.mk 13 false, KeyPress.mk 14 false, KeyPress.mk 15 false, KeyPress.mk 16 false,
    KeyPress.mk 17 false, KeyPress.mk 18 false, KeyPress.mk 19 false, KeyPress.mk 20 false, KeyPress.mk 21 false, KeyPress.mk 22 false, KeyPress.mk 23 false, KeyPress.mk 24 false,
    KeyPress.mk 25 false, KeyPress.mk 26 false, KeyPress.mk 27 false, KeyPress.mk 28 false, KeyPress.mk 29 false, KeyPress.mk 30 false, KeyPress.mk 31 false, KeyPress.mk 32 false,
    KeyPress.mk 33 false, KeyPress.mk 34 false, KeyPress.mk 35 false, KeyPress.mk 36 false, KeyPress.mk 37 false, KeyPress.mk 38 false, KeyPress.mk 39 false, KeyPress.mk 40 false,
    KeyPress.mk 41 false, KeyPress.mk 42 false, KeyPress.mk 43 false, KeyPress.mk 44 false, KeyPress.mk 45 false, KeyPress.mk 46 false, KeyPress.mk 47 false, KeyPress.mk 48 false,
    KeyPress.mk 49 false, KeyPress.mk 50 false, KeyPress.mk 51 false, KeyPress.mk 52 false, KeyPress.mk 53 false, KeyPress.mk 54 false, KeyPress.mk 55 false, KeyPress.mk 56 false,
    KeyPress.mk 57 false, KeyPress.mk 58 false, KeyPress.mk 59 false, KeyPress.mk 60 false, KeyPress.mk 61 false, KeyPress.mk 62 false, KeyPress.mk 63 false, KeyPress.mk 64 false,
    KeyPress.mk 65 false, KeyPress.mk 66 false, KeyPress.mk 67 false, KeyPress.mk 68 false, KeyPress.mk 69 false, KeyPress.mk 70 false, KeyPress.mk 71 false, KeyPress.mk 72 false,
    KeyPress.mk 73 false, KeyPress.mk 74 false, KeyPress.mk 75 false, KeyPress.mk 76 false, KeyPress.mk 77 false, KeyPress.mk 78 false, KeyPress.mk 79 false, KeyPress.mk 80 false,
    KeyPress.mk 81 false, KeyPress.mk 82 false, KeyPress.mk 83 false, KeyPress.mk 84 false, KeyPress.mk 85 false, KeyPress.mk 86 false, KeyPress.mk 87 false, KeyPress.mk 88 false,
    KeyPress.mk 89 false, KeyPress.mk 90 false, KeyPress.mk 91 false, KeyPress.mk 92 false, KeyPress.mk 93 false, KeyPress.mk 94 false, KeyPress.mk 95 false, KeyPress.mk 96 false,
    KeyPress.mk 97 false, KeyPress.mk 98 false, KeyPress.mk 99 false, KeyPress.mk 100 false, KeyPress.mk 101 false, KeyPress.mk 102 false, KeyPress.mk 103 false, KeyPress.mk 104 false,
    KeyPress.mk 105 false, KeyPress.mk 106 false, KeyPress.mk 107 false, KeyPress.mk 108 false, KeyPress.mk 109 false, KeyPress.mk 110 false, KeyPress.mk 111 false, KeyPress.mk 112 false,
    KeyPress.mk 113 false, KeyPress.mk 114 false, KeyPress.mk 115 false, KeyPress.mk 116 false, KeyPress.mk 117 false, KeyPress.mk 118 false, KeyPress.mk 119 false, KeyPress.mk 120 false,
    KeyPress.mk 121 false, KeyPress.mk 122 false, KeyPress.mk 123 false, KeyPress.mk 124 false, KeyPress.mk 125 false, KeyPress.mk 126 false, KeyPress.mk 127 false, KeyPress.mk 128 false,
    KeyPress.mk 129 false, KeyPress.mk 130 false, KeyPress.mk 131 false, KeyPress.mk 132 false, KeyPress.mk 133 false, KeyPress.mk 134 false, KeyPress.mk 135 false, KeyPress.mk 136 false,
    KeyPress.mk 137 false, KeyPress.mk 138 false, KeyPress.mk 139 false, KeyPress.mk 140 false, KeyPress.mk 141 false, KeyPress.mk 142 false, KeyPress.mk 143 false, KeyPress.mk 144 false,
    KeyPress.mk 145 false, KeyPress.mk 146 false, KeyPress.mk 147 false, KeyPress.mk 148 false, KeyPress.mk 149 false, KeyPress.mk 150 false, KeyPress.mk 151 false, KeyPress.mk 152 false,
    KeyPress.mk 153 false, KeyPress.mk 154 false, KeyPress.mk 155 false, KeyPress.mk 156 false, KeyPress.mk 157 false, KeyPress.mk 158 false, KeyPress.mk 159 false, KeyPress.mk 160 false,
    KeyPress.mk 161 false, KeyPress.mk 162 false, KeyPress.mk 163 false, KeyPress.mk 164 false, KeyPress.mk 165 false, KeyPress.mk 166 false, KeyPress.mk 167 false, KeyPress.mk 168 false,
    KeyPress.mk 169 false, KeyPress.mk 170 false, KeyPress.mk 171 false, KeyPress.mk 172 false, KeyPress.mk 173 false, KeyPress.mk 174 false, KeyPress.mk 175 false, KeyPress.mk 176 false,
    KeyPress.mk 177 false, KeyPress.mk 178 false, KeyPress.mk 179 false, KeyPress.mk 180 false, KeyPress.mk 181 false, KeyPress.mk 182 false, KeyPress.mk 183 false, KeyPress.mk 184 false,
    KeyPress.mk 185 false, KeyPress.mk 186 false, KeyPress.mk 187 false, KeyPress.mk 188 false, KeyPress.mk 189 false, KeyPress.mk 190 false, KeyPress.mk 191 false, KeyPress.mk 192 false,
    KeyPress.mk 193 false, KeyPress.mk 194 false, KeyPress.mk 195 false, KeyPress.mk 196 false, KeyPress.mk 197 false, KeyPress.mk 198 false, KeyPress.mk 199 false, KeyPress.mk 200 false,
    KeyPress.mk 201 false, KeyPress.mk 202 false, KeyPress.mk 203 false, KeyPress.mk 204 false, KeyPress.mk 205 false, KeyPress.mk 206 false, KeyPress.mk 207 false, KeyPress.mk 208 false,
    KeyPress.mk 209 false, KeyPress.mk 210 false, KeyPress.mk 211 false, KeyPress.mk 212 false, KeyPress.mk 213 false, KeyPress.mk 214 false, KeyPress.mk 215 false, KeyPress.mk 216 false,
    KeyPress.mk 217 false, KeyPress.mk 218 false, KeyPress.mk 219 false, KeyPress.mk 220 false, KeyPress.mk 221 false, KeyPress.mk 222 false, KeyPress.mk 223 false, KeyPress.mk 224 false,
    KeyPress.mk 225 false, KeyPress.mk 226 false, KeyPress.mk 227 false, KeyPress.mk 228 false, KeyPress.mk 229 false, KeyPress.mk 230 false, KeyPress.mk 231 false, KeyPress.mk 232 false,
    KeyPress.mk 233 false, KeyPress.mk 234 false, KeyPress.mk 235 false, KeyPress.mk 236 false, KeyPress.mk 237 false, KeyPress.mk 238 false, KeyPress.mk 239 false, KeyPress.mk 240 false,
    KeyPress.mk 241 false, KeyPress.mk 242 false, KeyPress.mk 243 false, KeyPress.mk 244 false, KeyPress.mk 245 false, KeyPress.mk 246 false, KeyPress.mk 247 false, KeyPress.mk 248 false,
    KeyPress.mk 249 false, KeyPress.mk 250 false, KeyPress.mk 251 false, KeyPress.mk 252 false, KeyPress.mk 253 false, KeyPress.mk 254 false, KeyPress.mk 255 false, KeyPress.mk 256 false,
    KeyPress.mk 257 false, KeyPress.mk 258 false, KeyPress.mk 259 false, KeyPress.mk 260 false, KeyPress.mk 261 false, KeyPress.mk 262 false, KeyPress.mk 263 false, KeyPress.mk 264 false,
    KeyPress.mk 265 false, KeyPress.mk 266 false, KeyPress.mk 267 false, KeyPress.mk 268 false, KeyPress.mk 269 false, KeyPress.mk 270 false, KeyPress.mk 271 false, KeyPress.mk 272 false,
    KeyPress.mk 273 false, KeyPress.mk 274 false, KeyPress.mk 275 false, KeyPress.mk 276 false, KeyPress.mk 277 false, KeyPress.mk 278 false, KeyPress.mk 279 false, KeyPress.mk 280 false,
    KeyPress.mk 281 false, KeyPress.mk 282 false, KeyPress.mk 283 false, KeyPress.mk 284 false, KeyPress.mk 285 false, KeyPress.mk 286 false, KeyPress.mk 287 false, KeyPress.mk 288 false,
    KeyPress.mk 289 false, KeyPress.mk 290 false, KeyPress.mk 291 false, KeyPress.mk 292 false, KeyPress.mk 293 false, KeyPress.mk 294 false, KeyPress.mk 295 false, KeyPress.mk 296 false,
    KeyPress.mk 297 false, KeyPress.mk 298 false, KeyPress.mk 299 false, KeyPress.mk 300 false, KeyPress.mk 301 false, KeyPress.mk 302 false, KeyPress.mk 303 false, KeyPress.mk 304 false,
    KeyPress.mk 305 false, KeyPress.mk 306 false, KeyPress.mk 307 false, KeyPress.mk 308 false, KeyPress.mk 309 false, KeyPress.mk 310 false, KeyPress.mk 311 false, KeyPress.mk 312 false,
    KeyPress.mk 313 false, KeyPress.mk 314 false, KeyPress.mk 315 false, KeyPress.mk 316 false, KeyPress.mk 317 false, KeyPress.mk 318 false, KeyPress.mk 319 false, KeyPress.mk 320 false,
    KeyPress.mk 321 false, KeyPress.mk 322 false, KeyPress.mk 323 false, KeyPress.mk 324 false, KeyPress.mk 325 false, KeyPress.mk 326 false, KeyPress.mk 327 false, KeyPress.mk 328 false,
    KeyPress.mk 329 false, KeyPress.mk 330 false, KeyPress.mk 331 false, KeyPress.mk 332 false, KeyPress.mk 333 false, KeyPress.mk 334 false, KeyPress.mk 335 false, KeyPress.mk 336 false,
    KeyPress.mk 337 false, KeyPress.mk 338 false, KeyPress.mk 339 false, KeyPress.mk 340 false, KeyPress.mk 341 false, KeyPress.mk 342 false, KeyPress.mk 343 false, KeyPress.mk 344 false,
    KeyPress.mk 345 false, KeyPress.mk 346 false, KeyPress.mk 347 false, KeyPress.mk 348 false, KeyPress.mk 349 false, KeyPress.mk 350 false, KeyPress.mk 351 false, KeyPress.mk 352 false,
    KeyPress.mk 353 false, KeyPress.mk 354 false, KeyPress.mk 355 false, KeyPress.mk 356 false, KeyPress.mk 357 false, KeyPress.mk 358 false, KeyPress.mk 359 false, KeyPress.mk 360 false,
    KeyPress.mk 361 false, KeyPress.mk 362 false, KeyPress.mk 363 false, KeyPress.mk 364 false, KeyPress.mk 365 false, KeyPress.mk 366 false, KeyPress.mk 367 false, KeyPress.mk 368 false,
    KeyPress.mk 369 false, KeyPress.mk 370 false, KeyPress.mk 371 false, KeyPress.mk 372 false, KeyPress.mk 373 false, KeyPress.mk 374 false, KeyPress.mk 375 false, KeyPress.mk 376 false,
    KeyPress.mk 377 false, KeyPress.mk 378 false, KeyPress.mk 379 false, KeyPress.mk 380 false, KeyPress.mk 381 false, KeyPress.mk 382 false, KeyPress.mk 383 false, KeyPress.mk 384 false,
    KeyPress.mk 385 false, KeyPress.mk 386 false, KeyPress.mk 387 false, KeyPress.mk 388 false, KeyPress.mk 389 false, KeyPress.mk 390 false, KeyPress.mk 391 false, KeyPress.mk 392 false,
    KeyPress.mk 393 false, KeyPress.mk 394 false, KeyPress.mk 395 false, KeyPress.mk 396 false, KeyPress.mk 397 false, KeyPress.mk 398 false, KeyPress.mk 399 false, KeyPress.mk 400 false,
    KeyPress.mk 401 false, KeyPress.mk 402 false, KeyPress.mk 403 false, KeyPress.mk 404 false, KeyPress.mk 405 false, KeyPress.mk 406 false, KeyPress.mk 407 false, KeyPress.mk 408 false,
    KeyPress.mk 409 false, KeyPress.mk 410 false, KeyPress.mk 411 false, KeyPress.mk 412 false, KeyPress.mk 413 false, KeyPress.mk 414 false, KeyPress.mk 415 false, KeyPress.mk 416 false,
    KeyPress.mk 417 false, KeyPress.mk 418 false, KeyPress.mk 419 false, KeyPress.mk 420 false, KeyPress.mk 421 false, KeyPress.mk 422 false, KeyPress.mk 423 false, KeyPress.mk 424 false,
    KeyPress.mk 425 false, KeyPress.mk 426 false, KeyPress.mk 427 false, KeyPress.mk 428 false, KeyPress.mk 429 false, KeyPress.mk 430 false, KeyPress.mk 431 false, KeyPress.mk 432 false,
    KeyPress.mk 433 false, KeyPress.mk 434 false, KeyPress.mk 435 false, KeyPress.mk 436 false, KeyPress.mk 437 false, KeyPress.mk 438 false, KeyPress.mk 439 false, KeyPress.mk 440 false,
    KeyPress.mk 441 false, KeyPress.mk 442 false, KeyPress.mk 443 false, KeyPress.mk 444 false, KeyPress.mk 445 false, KeyPress.mk 446 false, KeyPress.mk 447 false, KeyPress.mk 448 false,
    KeyPress.mk 449 false, KeyPress.mk 450 false, KeyPress.mk 451 false, KeyPress.mk 452 false, KeyPress.mk 453 false, KeyPress.mk 454 false, KeyPress.mk 455 false, KeyPress.mk 456 false,
    KeyPress.mk 457 false, KeyPress.mk 458 false, KeyPress.mk 459 false, KeyPress.mk 460 false, KeyPress.mk 461 false, KeyPress.mk 462 false, KeyPress.mk 463 false, KeyPress.mk 464 false,
    KeyPress.mk 465 false, KeyPress.mk 466 false, KeyPress.mk 467 false, KeyPress.mk 468 false, KeyPress.mk 469 false, KeyPress.mk 470 false, KeyPress.mk 471 false, KeyPress.mk 472 false,
    KeyPress.mk 473 false, KeyPress.mk 474 false, KeyPress.mk 475 false, KeyPress.mk 476 false, KeyPress.mk 477 false, KeyPress.mk 478 false, KeyPress.mk 479 false, KeyPress.mk 480 false,
    KeyPress.mk 481 false, KeyPress.mk 482 false, KeyPress.mk 483 false, KeyPress.mk 484 false, KeyPress.mk 485 false, KeyPress.mk 486 false, KeyPress.mk 487 false, KeyPress.mk 488 false,
    KeyPress.mk 489 false, KeyPress.mk 490 false, KeyPress.mk 491 false, KeyPress.mk 492 false, KeyPress.mk 493 false, KeyPress.mk 494 false, KeyPress.mk 495 false, KeyPress.mk 496 false,
    KeyPress.mk 497 false, KeyPress.mk 498 false, KeyPress.mk 499 false, KeyPress.mk 500 false, KeyPress.mk 501 false, KeyPress.mk 502 false, KeyPress.mk 503 false, KeyPress.mk 504 false,
    KeyPress.mk 505 false, KeyPress.mk 506 false, KeyPress.mk 507 false, KeyPress.mk 508 false, KeyPress.mk 509 false, KeyPress.mk 510 false, KeyPress.mk 511 false, KeyPress.mk 512 false,
    KeyPress.mk 513 false, KeyPress.mk 514 false, KeyPress.mk 515 false, KeyPress.mk 516 false, KeyPress.mk 517 false, KeyPress.mk 518 false, KeyPress.mk 519 false, KeyPress.mk 520 false,
    KeyPress.mk 521 false, KeyPress.mk 522 false, KeyPress.mk 523 false, KeyPress.mk 524 false, KeyPress.mk 525 false, KeyPress.mk 526 false, KeyPress.mk 527 false, KeyPress.mk 528 false,
    KeyPress.mk 529 false, KeyPress.mk 530 false, KeyPress.mk 531 false, KeyPress.mk 532 false, KeyPress.mk 533 false, KeyPress.mk 534 false, KeyPress.mk 535 false, KeyPress.mk 536 false,
    KeyPress.mk 537 false, KeyPress.mk 538 false, KeyPress.mk 539 false, KeyPress.mk 540 false, KeyPress.mk 541 false, KeyPress.mk 542 false, KeyPress.mk 543 false, KeyPress.mk 544 false,
    KeyPress.mk 545 false, KeyPress.mk 546 false, KeyPress.mk 547 false, KeyPress.mk 548 false, KeyPress.mk 549 false, KeyPress.mk 550 false, KeyPress.mk 551 false, KeyPress.mk 552 false,
    KeyPress.mk 553 false, KeyPress.mk 554 false, KeyPress.mk 555 false, KeyPress.mk 556 false, KeyPress.mk 557 false, KeyPress.mk 558 false, KeyPress.mk 559 false, KeyPress.mk 560 false,
    KeyPress.mk 561 false, KeyPress.mk 562 false, KeyPress.mk 563 false, KeyPress.mk 564 false, KeyPress.mk 565 false, KeyPress.mk 566 false, KeyPress.mk 567 false, KeyPress.mk 568 false,
    KeyPress.mk 569 false, KeyPress.mk 570 false, KeyPress.mk 571 false, KeyPress.mk 572 false, KeyPress.mk 573 false, KeyPress.mk 574 false, KeyPress.mk 575 false, KeyPress.mk 576 false,
    KeyPress.mk 577 false, KeyPress.mk 578 false, KeyPress.mk 579 false, KeyPress.mk 580 false, KeyPress.mk 581 false, KeyPress.mk 582 false, KeyPress.mk 583 false, KeyPress.mk 584 false,
    KeyPress.mk 585 false, KeyPress.mk 586 false, KeyPress.mk 587 false, KeyPress.mk 588 false, KeyPress.mk 589 false, KeyPress.mk 590 false, KeyPress.mk 591 false, KeyPress.mk 592 false,
    KeyPress.mk 593 false, KeyPress.mk 594 false, KeyPress.mk 595 false, KeyPress.mk 596 false, KeyPress.mk 597 false, KeyPress.mk 598 false, KeyPress.mk 599 false, KeyPress.mk 600 false,
    KeyPress.mk 601 false, KeyPress.mk 602 false, KeyPress.mk 603 false, KeyPress.mk 604 false, KeyPress.mk 605 false, KeyPress.mk 606 false, KeyPress.mk 607 false, KeyPress.mk 608 false,
    KeyPress.mk 609 false, KeyPress.mk 610 false, KeyPress.mk 611 false, KeyPress.mk 612 false, KeyPress.mk 613 false, KeyPress.mk 614 false, KeyPress.mk 615 false, KeyPress.mk 616 false,
    KeyPress.mk 617 false, KeyPress.mk 618 false, KeyPress.mk 619 false, KeyPress.mk 620 false, KeyPress.mk 621 false, KeyPress.mk 622 false, KeyPress.mk 623 false, KeyPress.mk 624 false,
    KeyPress.mk 625 false, KeyPress.mk 626 false, KeyPress.mk 627 false, KeyPress.mk 628 false, KeyPress.mk 629 false, KeyPress.mk 630 false, KeyPress.mk 631 false, KeyPress.mk 632 false,
    KeyPress.mk 633 false, KeyPress.mk 634 false, KeyPress.mk 635 false, KeyPress.mk 636 false, KeyPress.mk 637 false, KeyPress.mk 638 false, KeyPress.mk 639 false, KeyPress.mk 640 false,
    KeyPress.mk 641 false, KeyPress.mk 642 false, KeyPress.mk 643 false, KeyPress.mk 644 false, KeyPress.mk 645 false, KeyPress.mk 646 false, KeyPress.mk 647 false, KeyPress.mk 648 false,
    KeyPress.mk 649 false, KeyPress.mk 650 false, KeyPress.mk 651 false, KeyPress.mk 652 false, KeyPress.mk 653 false, KeyPress.mk 654 false, KeyPress.mk 655 false, KeyPress.mk 656 false,
    KeyPress.mk 657 false, KeyPress.mk 658 false, KeyPress.mk 659 false, KeyPress.mk 660 false, KeyPress.mk 661 false, KeyPress.mk 662 false, KeyPress.mk 663 false, KeyPress.mk 664 false,
    KeyPress.mk 665 false, KeyPress.mk 666 false, KeyPress.mk 667 false, KeyPress.mk 668 false, KeyPress.mk 669 false, KeyPress.mk 670 false, KeyPress.mk 671 false, KeyPress.mk 672 false,
    KeyPress.mk 673 false, KeyPress.mk 674 false, KeyPress.mk 675 false, KeyPress.mk 676 false, KeyPress.mk 677 false, KeyPress.mk 678 false, KeyPress.mk 679 false, KeyPress.mk 680 false,
    KeyPress.mk 681 false, KeyPress.mk 682 false, KeyPress.mk 683 false, KeyPress.mk 684 false, KeyPress.mk 685 false, KeyPress.mk 686 false, KeyPress.mk 687 false, KeyPress.mk 688 false,
    KeyPress.mk 689 false, KeyPress.mk 690 false, KeyPress.mk 691 false, KeyPress.mk 692 false, KeyPress.mk 693 false, KeyPress.mk 694 false, KeyPress.mk 695 false, KeyPress.mk 696 false,
    KeyPress.mk 697 false, KeyPress.mk 698 false, KeyPress.mk 699 false, KeyPress.mk 700 false, KeyPress.mk 701 false, KeyPress.mk 702 false, KeyPress.mk 703 false, KeyPress.mk 704 false,
    KeyPress.mk 705 false, KeyPress.mk 706 false, KeyPress.mk 707 false, KeyPress.mk 708 false, KeyPress.mk 709 false, KeyPress.mk 710 false, KeyPress.mk 711 false, KeyPress.mk 712 false,
    KeyPress.mk 713 false, KeyPress.mk 714 false, KeyPress.mk 715 false, KeyPress.mk 716 false, KeyPress.mk 717 false, KeyPress.mk 718 false, KeyPress.mk 719 false, KeyPress.mk 720 false,
    KeyPress.mk 721 false, KeyPress.mk 722 false, KeyPress.mk 723 false, KeyPress.mk 724 false, KeyPress.mk 725 false, KeyPress.mk 726 false, KeyPress.mk 727 false, KeyPress.mk 728 false,
    KeyPress.mk 729 false, KeyPress.mk 730 false, KeyPress.mk 731 false, KeyPress.mk 732 false, KeyPress.mk 733 false, KeyPress.mk 734 false, KeyPress.mk 735 false, KeyPress.mk 736 false,
    KeyPress.mk 737 false, KeyPress.mk 738 false, KeyPress.mk 739 false, KeyPress.mk 740 false, KeyPress.mk 741 false, KeyPress.mk 742 false, KeyPress.mk 743 false, KeyPress.mk 744 false,
    KeyPress.mk 745 false, KeyPress.mk 746 false, KeyPress.mk 747 false, KeyPress.mk 748 false, KeyPress.mk 749 false, KeyPress.mk 750 false, KeyPress.mk 751 false, KeyPress.mk 752 false,
    KeyPress.mk 753 false, KeyPress.mk 754 false, KeyPress.mk 755 false, KeyPress.mk 756 false, KeyPress.mk 757 false, KeyPress.mk 758 false, KeyPress.mk 759 false, KeyPress.mk 760 false,
    KeyPress.mk 761 false, KeyPress.mk 762 false, KeyPress.mk 763 false, KeyPress.mk 764 false, KeyPress.mk 765 false, KeyPress.mk 766 false, KeyPress.mk 767 false, KeyPress.mk 768 false,
    KeyPress.mk 769 false, KeyPress.mk 770 false, KeyPress.mk 771 false, KeyPress.mk 772 false, KeyPress.mk 773 false, KeyPress.mk 774 false, KeyPress.mk 775 false, KeyPress.mk 776 false,
    KeyPress.mk 777 false, KeyPress.mk 778 false, KeyPress.mk 779 false, KeyPress.mk 780 false, KeyPress.mk 781 false, KeyPress.mk 782 false, KeyPress.mk 783 false, KeyPress.mk 784 false,
    KeyPress.mk 785 false, KeyPress.mk 786 false, KeyPress.mk 787 false, KeyPress.mk 788 false, KeyPress.mk 789 false, KeyPress.mk 790 false, KeyPress.mk 791 false, KeyPress.mk 792 false,
    KeyPress.mk 793 false, KeyPress.mk 794 false, KeyPress.mk 795 false, KeyPress.mk 796 false, KeyPress.mk 797 false, KeyPress.mk 798 false, KeyPress.mk 799 false, KeyPress.mk 800 false,
    KeyPress.mk 801 false, KeyPress.mk 802 false, KeyPress.mk 803 false, KeyPress.mk 804 false, KeyPress.mk 805 false, KeyPress.mk 806 false, KeyPress.mk 807 false, KeyPress.mk 808 false,
    KeyPress.mk 809 false, KeyPress.mk 810 false, KeyPress.mk 811 false, KeyPress.mk 812 false, KeyPress.mk 813 false, KeyPress.mk 814 false, KeyPress.mk 815 false, KeyPress.mk 816 false,
    KeyPress.mk 817 false, KeyPress.mk 818 false, KeyPress.mk 819 false, KeyPress.mk 820 false, KeyPress.mk 821 false, KeyPress.mk 822 false, KeyPress.mk 823 false, KeyPress.mk 824 false,
    KeyPress.mk 825 false, KeyPress.mk 826 false, KeyPress.mk 827 false, KeyPress.mk 828 false, KeyPress.mk 829 false, KeyPress.mk 830 false, KeyPress.mk 831 false, KeyPress.mk 832 false,
    KeyPress.mk 833 false, KeyPress.mk 834 false, KeyPress.mk 835 false, KeyPress.mk 836 false, KeyPress.mk 837 false, KeyPress.mk 838 false, KeyPress.mk 839 false, KeyPress.mk 840 false,
    KeyPress.mk 841 false, KeyPress.mk 842 false, KeyPress.mk 843 false, KeyPress.mk 844 false, KeyPress.mk 845 false, KeyPress.mk 846 false, KeyPress.mk 847 false, KeyPress.mk 848 false,
    KeyPress.mk 849 false, KeyPress.mk 850 false, KeyPress.mk 851 false, KeyPress.mk 852 false, KeyPress.mk 853 false, KeyPress.mk 854 false, KeyPress.mk 855 false, KeyPress.mk 856 false,
    KeyPress.mk 857 false, KeyPress.mk 858 false, KeyPress.mk 859 false, KeyPress.mk 860 false, KeyPress.mk 861 false, KeyPress.mk 862 false, KeyPress.mk 863 false, KeyPress.mk 864 false,
    KeyPress.mk 865 false, KeyPress.mk 866 false, KeyPress.mk 867 false, KeyPress.mk 868 false, KeyPress.mk 869 false, KeyPress.mk 870 false, KeyPress.mk 871 false, KeyPress.mk 872 false,
    KeyPress.mk 873 false, KeyPress.mk 874 false, KeyPress.mk 875 false, KeyPress.mk 876 false, KeyPress.mk 877 false, KeyPress.mk 878 false, KeyPress.mk 879 false, KeyPress.mk 880 false,
    KeyPress.mk 881 false, KeyPress.mk 882 false, KeyPress.mk 883 false, KeyPress.mk 884 false, KeyPress.mk 885 false, KeyPress.mk 886 false, KeyPress.mk 887 false, KeyPress.mk 888 false,
    KeyPress.mk 889 false, KeyPress.mk 890 false, KeyPress.mk 891 false, KeyPress.mk 892 false, KeyPress.mk 893 false, KeyPress.mk 894 false, KeyPress.mk 895 false, KeyPress.mk 896 false,
    KeyPress.mk 897 false, KeyPress.mk 898 false, KeyPress.mk 899 false, KeyPress.mk 900 false, KeyPress.mk 901 false, KeyPress.mk 902 false, KeyPress.mk 903 false, KeyPress.mk 904 false,
    KeyPress.mk 905 false, KeyPress.mk 906 false, KeyPress.mk 907 false, KeyPress.mk 908 false, KeyPress.mk 909 false, KeyPress.mk 910 false, KeyPress.mk 911 false, KeyPress.mk 912 false,
    KeyPress.mk 913 false, KeyPress.mk 914 false, KeyPress.mk 915 false, KeyPress.mk 916 false, KeyPress.mk 917 false, KeyPress.mk 918 false, KeyPress.mk 919 false, KeyPress.mk 920 false,
    KeyPress.mk 921 false, KeyPress.mk 922 false, KeyPress.mk 923 false, KeyPress.mk 924 false, KeyPress.mk 925 false, KeyPress.mk 926 false, KeyPress.mk 927 false, KeyPress.mk 928 false,
    KeyPress.mk 929 false, KeyPress.mk 930 false, KeyPress.mk 931 false, KeyPress.mk 932 false, KeyPress.mk 933 false, KeyPress.mk 934 false, KeyPress.mk 935 false, KeyPress.mk 936 false,
    KeyPress.mk 937 false, KeyPress.mk 938 false, KeyPress.mk 939 false, KeyPress.mk 940 false, KeyPress.mk 941 false, KeyPress.mk 942 false, KeyPress.mk 943 false, KeyPress.mk 944 false,
    KeyPress.mk 945 false, KeyPress.mk 946 false, KeyPress.mk 947 false, KeyPress.mk 948 false, KeyPress.mk 949 false, KeyPress.mk 950 false, KeyPress.mk 951 false, KeyPress.mk 952 false,
    KeyPress.mk 953 false, KeyPress.mk 954 false, KeyPress.mk 955 false, KeyPress.mk 956 false, KeyPress.mk 957 false, KeyPress.mk 958 false, KeyPress.mk 959 false, KeyPress.mk 960 false,
    KeyPress.mk 961 false, KeyPress.mk 962 false, KeyPress.mk 963 false, KeyPress.mk 964 false, KeyPress.mk 965 false, KeyPress.mk 966 false, KeyPress.mk 967 false, KeyPress.mk 968 false,
    KeyPress.mk 969 false, KeyPress.mk 970 false, KeyPress.mk 971 false, KeyPress.mk 972 false, KeyPress.mk 973 false, KeyPress.mk 974 false, KeyPress.mk 975 false, KeyPress.mk 976 false,
    KeyPress.mk 977 false, KeyPress.mk 978 false, KeyPress.mk 979 false, KeyPress.mk 980 false, KeyPress.mk 981 false, KeyPress.mk 982 false, KeyPress.mk 983 false, KeyPress.mk 984 false,
    KeyPress.mk 985 false, KeyPress.mk 986 false, KeyPress.mk 987 false, KeyPress.mk 988 false, KeyPress.mk 989 false, KeyPress.mk 990 false, KeyPress.mk 991 false, KeyPress.mk 992 false,
    KeyPress.mk 993 false, KeyPress.mk 994 false, KeyPress.mk 995 false, KeyPress.mk 996 false, KeyPress.mk 997 false, KeyPress.mk 998 false, KeyPress.mk 999 false, KeyPress.mk 1000 false,
    KeyPress.mk 1001 false, KeyPress.mk 1002 false, KeyPress.mk 1003 false, KeyPress.mk 1004 false, KeyPress.mk 1005 false, KeyPress.mk 1006 false, KeyPress.mk 1007 false, KeyPress.mk 1008 false,
    KeyPress.mk 1009 false, KeyPress.mk 1010 false, KeyPress.mk 1011 false, KeyPress.mk 1012 false, KeyPress.mk 1013 false, KeyPress.mk 1014 false, KeyPress.mk 1015 false, KeyPress.mk 1016 false,
    KeyPress.mk 1017 false, KeyPress.mk 1018 false, KeyPress.mk 1019 false, KeyPress.mk 1020 false, KeyPress.mk 1021 false, KeyPress.mk 1022 false, KeyPress.mk 1023 false
  ]

/-! ## Shared lemmas -/

theorem bitsToNat_eq_mod (v : Nat) (w : Nat → Bool) (k : Nat)
    (h : ∀ i, i < k → w i = v.testBit i) : bitsToNat w k = v % 2 ^ k := by
  induction k with
  | zero => simp [bitsToNat, Nat.mod_one]
  | succ n ih =>
    have ih1 := ih (fun i hi => h i (Nat.lt_succ_of_lt hi))
    have hn := h n (Nat.lt_succ_self n)
    rw [bitsToNat, ih1, hn, Nat.mod_pow_succ, Nat.testBit_to_div_mod]
    rcases Nat.mod_two_eq_zero_or_one (v / 2 ^ n) with h0 | h1
    · simp [h0]
    · simp [h1]

theorem Bus.toNat_SetValue {width : Nat} (b : Bus width) (v : Nat) :
    (b.SetValue v).toNat = v % 2 ^ width := by
  unfold Bus.toNat
  apply bitsToNat_eq_mod
  intro i hi
  simp [Bus.SetValue, hi]

theorem KeyboardAdapter.updateKeycodeReg_idle (k : KeyboardAdapter)
    (h : k.andGate4.Output = false) : k.updateKeycodeReg = some k := by
  simp [KeyboardAdapter.updateKeycodeReg, h]

theorem KeyboardAdapter.updateKeycodeReg_fire (k : KeyboardAdapter) (mb : Bus BUS_WIDTH)
    (h : k.andGate4.Output = true) (hm : k.mainBus = some mb) :
    k.updateKeycodeReg = some { k with
      keycodeRegister :=
        { name := k.keycodeRegister.name, bits := fun _ => ⟨false⟩, set := false,
          enable := false }
      KeyboardInBus := k.KeyboardInBus.SetValue 0
      mainBus := some k.KeyboardInBus } := by
  simp [KeyboardAdapter.updateKeycodeReg, h, hm, Register.Set, Register.Enable,
    Register.Disable, Register.Unset, Register.Update, Bit.Update, Bit.Get, Bus.SetValue,
    Bus.GetOutputWire]

theorem KeyboardAdapter.update_eq (k : KeyboardAdapter) (mb : Bus BUS_WIDTH) (io : IOBus)
    (b : Bit) (h1 : k.mainBus = some mb) (h2 : k.ioBus = some io)
    (h3 : k.memoryBit = some b) :
    k.update = some { k with
      notGatesForAndGate1 :=
        Function.update (Function.update (Function.update (Function.update
          k.notGatesForAndGate1 0 ⟨!mb.wires 8⟩) 1 ⟨!mb.wires 9⟩) 2 ⟨!mb.wires 10⟩)
          3 ⟨!mb.wires 11⟩
      andGate1 := ⟨!mb.wires 8 && !mb.wires 9 && !mb.wires 10 && !mb.wires 11 &&
        mb.wires 12 && mb.wires 13 && mb.wires 14 && mb.wires 15⟩
      andGate2 := ⟨io.clockSet && io.dataOrAddress && io.mode⟩
      memoryBit := some (b.Update
        (!mb.wires 8 && !mb.wires 9 && !mb.wires 10 && !mb.wires 11 &&
          mb.wires 12 && mb.wires 13 && mb.wires 14 && mb.wires 15)
        (io.clockSet && io.dataOrAddress && io.mode))
      notGatesForAndGate3 :=
        Function.update (Function.update k.notGatesForAndGate3 0 ⟨!io.dataOrAddress⟩)
          1 ⟨!io.mode⟩
      andGate3 := ⟨io.clockEnable && !io.dataOrAddress && !io.mode⟩
      andGate4 := ⟨(b.Update
        (!mb.wires 8 && !mb.wires 9 && !mb.wires 10 && !mb.wires 11 &&
          mb.wires 12 && mb.wires 13 && mb.wires 14 && mb.wires 15)
        (io.clockSet && io.dataOrAddress && io.mode)).Get &&
        (io.clockEnable && !io.dataOrAddress && !io.mode)⟩ } := by
  simp [KeyboardAdapter.update, h1, h2, h3, Function.update_apply, NOTGate.Update,
    NOTGate.Output, ANDGate8.Update, ANDGate8.Output, ANDGate3.Update, ANDGate3.Output,
    ANDGate.Update, ANDGate.Output, Bus.GetOutputWire, IOBus.GetOutputWire]

theorem KeyboardAdapter.Update_idle (k : KeyboardAdapter)
    (h : k.andGate4.Output = false) : k.Update = k.update := by
  simp [KeyboardAdapter.Update, KeyboardAdapter.updateKeycodeReg_idle k h]

/-- What one `Update` of a connected adapter does, field by field.  `fire` is the output
of `andGate4` at entry. -/
theorem KeyboardAdapter.Update_spec (k : KeyboardAdapter) (mb : Bus BUS_WIDTH) (io : IOBus)
    (b : Bit) (h1 : k.mainBus = some mb) (h2 : k.ioBus = some io)
    (h3 : k.memoryBit = some b) :
    ∃ k1, k.Update = some k1 ∧
      k1.mainBus = some (if k.andGate4.Output then k.KeyboardInBus else mb) ∧
      k1.ioBus = some io ∧
      k1.KeyboardInBus =
        (if k.andGate4.Output then k.KeyboardInBus.SetValue 0 else k.KeyboardInBus) ∧
      k1.keycodeRegister =
        (if k.andGate4.Output then
          { name := k.keycodeRegister.name, bits := fun _ => ⟨false⟩, set := false,
            enable := false }
        else k.keycodeRegister) ∧
      k1.memoryBit = some (b.Update
        (addressMatch (if k.andGate4.Output then k.KeyboardInBus else mb))
        (selectSignal io)) ∧
      k1.andGate1.Output =
        addressMatch (if k.andGate4.Output then k.KeyboardInBus else mb) ∧
      k1.andGate2.Output = selectSignal io ∧
      k1.andGate3.Output = readSignal io ∧
      k1.andGate4.Output = ((b.Update
        (addressMatch (if k.andGate4.Output then k.KeyboardInBus else mb))
        (selectSignal io)).Get && readSignal io) := by
  by_cases hf : k.andGate4.Output = true
  · rw [KeyboardAdapter.Update, KeyboardAdapter.updateKeycodeReg_fire k mb hf h1]
    simp only [hf, if_true]
    simp [KeyboardAdapter.update, h2, h3, Function.update_apply, NOTGate.Update,
      NOTGate.Output, ANDGate8.Update, ANDGate8.Output, ANDGate3.Update, ANDGate3.Output,
      ANDGate.Update, ANDGate.Output, Bus.GetOutputWire, IOBus.GetOutputWire,
      addressMatch, selectSignal, readSignal]
  · have hf0 : k.andGate4.Output = false := by simpa using hf
    rw [KeyboardAdapter.Update_idle k hf0]
    simp only [hf0, Bool.false_eq_true, if_false]
    simp [KeyboardAdapter.update, h1, h2, h3, Function.update_apply, NOTGate.Update,
      NOTGate.Output, ANDGate8.Update, ANDGate8.Output, ANDGate3.Update, ANDGate3.Output,
      ANDGate.Update, ANDGate.Output, Bus.GetOutputWire, IOBus.GetOutputWire,
      addressMatch, selectSignal, readSignal]

/-- What one tick of a connected adapter does: `Update_spec` with the IOBus lines asserted
for that tick. -/
theorem KeyboardAdapter.tick_spec (k : KeyboardAdapter) (mb : Bus BUS_WIDTH) (io0 : IOBus)
    (b : Bit) (io : IOBus) (h1 : k.mainBus = some mb) (h2 : k.ioBus = some io0)
    (h3 : k.memoryBit = some b) :
    ∃ k1, k.tick io = some k1 ∧
      k1.mainBus = some (if k.andGate4.Output then k.KeyboardInBus else mb) ∧
      k1.ioBus = some io ∧
      k1.KeyboardInBus =
        (if k.andGate4.Output then k.KeyboardInBus.SetValue 0 else k.KeyboardInBus) ∧
      k1.memoryBit = some (b.Update
        (addressMatch (if k.andGate4.Output then k.KeyboardInBus else mb))
        (selectSignal io)) ∧
      k1.andGate4.Output = ((b.Update
        (addressMatch (if k.andGate4.Output then k.KeyboardInBus else mb))
        (selectSignal io)).Get && readSignal io) := by
  obtain ⟨k1, hU, hm, hi, hk, _, hb, _, _, _, hg⟩ :=
    KeyboardAdapter.Update_spec (k.setIOBus io) mb io b
      (by simp [KeyboardAdapter.setIOBus, h1]) (by simp [KeyboardAdapter.setIOBus, h2])
      (by simp [KeyboardAdapter.setIOBus, h3])
  exact ⟨k1, hU, hm, hi, hk, hb, hg⟩

/-! ## C1: the keyboard scenario -/

/-- C1, counterexample: a freshly connected adapter with key code 65 pending on
`KeyboardInBus`, ticked once with CLOCK_SET=1, DATA_OR_ADDRESS=0, MODE=0 and once with
CLOCK_ENABLE=1, DATA_OR_ADDRESS=0, MODE=0.  After the two ticks the main bus does not
carry 65: it still carries 0 when it was all zero, and still carries the address word
61440 when the address was on it; the key code is still pending on `KeyboardInBus`. -/
theorem C1_scenario_lines_do_not_deliver :
    ((((freshAdapter 65).tick scenarioAddressPhase).bind
      fun k => k.tick scenarioDataPhase).bind fun k => k.mainBus).map Bus.toNat = some 0 ∧
    ((((freshAdapter 65).tick scenarioAddressPhase).bind
      fun k => k.tick scenarioDataPhase).bind fun k => k.mainBus).map Bus.toNat ≠ some 65 ∧
    (((((freshAdapter 65).setMainBus keyboardAddress).tick scenarioAddressPhase).bind
      fun k => k.tick scenarioDataPhase).bind fun k => k.mainBus).map Bus.toNat =
        some 61440 ∧
    ((((freshAdapter 65).tick scenarioAddressPhase).bind
      fun k => k.tick scenarioDataPhase).map fun k => k.KeyboardInBus.toNat) = some 65 := by
  decide

/-- C1, amended: for a connected adapter whose read-enable gate is off, with key code 65
pending on `KeyboardInBus`: after one tick with CLOCK_SET=1, DATA_OR_ADDRESS=1, MODE=1 and
the main bus carrying the adapter's address (wires 8 to 11 false, wires 12 to 15 true),
followed by one tick with CLOCK_ENABLE=1, DATA_OR_ADDRESS=0, MODE=0, the main bus is still
unchanged; after one further tick (any IOBus lines) the main bus carries 65. -/
theorem C1_key_code_delivered_on_third_tick (k : KeyboardAdapter) (mb : Bus BUS_WIDTH)
    (io : IOBus) (b : Bit) (io1 io2 io3 : IOBus)
    (hmb : k.mainBus = some mb) (hio : k.ioBus = some io) (hbit : k.memoryBit = some b)
    (hidle : k.andGate4.Output = false)
    (hkey : k.KeyboardInBus = (NewBus BUS_WIDTH).SetValue 65)
    (haddr : mb.wires 8 = false ∧ mb.wires 9 = false ∧ mb.wires 10 = false ∧
      mb.wires 11 = false ∧ mb.wires 12 = true ∧ mb.wires 13 = true ∧ mb.wires 14 = true ∧
      mb.wires 15 = true)
    (h1 : io1.clockSet = true ∧ io1.dataOrAddress = true ∧ io1.mode = true)
    (h2 : io2.clockEnable = true ∧ io2.dataOrAddress = false ∧ io2.mode = false) :
    ∃ k1 k2 k3, k.tick io1 = some k1 ∧ k1.tick io2 = some k2 ∧ k2.tick io3 = some k3 ∧
      k1.mainBus = some mb ∧ k2.mainBus = some mb ∧
      k3.mainBus = some ((NewBus BUS_WIDTH).SetValue 65) ∧
      k3.mainBus.map Bus.toNat = some 65 := by
  obtain ⟨a8, a9, a10, a11, a12, a13, a14, a15⟩ := haddr
  obtain ⟨s1, s2, s3⟩ := h1
  obtain ⟨d1, d2, d3⟩ := h2
  obtain ⟨k1, e1, m1, i1, kb1, bit1, g1⟩ :=
    KeyboardAdapter.tick_spec k mb io b io1 hmb hio hbit
  simp [hidle, addressMatch, selectSignal, readSignal, Bit.Update, Bit.Get, a8, a9, a10, a11,
    a12, a13, a14, a15, s1, s2, s3] at m1 kb1 bit1 g1
  obtain ⟨k2, e2, m2, i2, kb2, bit2, g2⟩ :=
    KeyboardAdapter.tick_spec k1 mb io1 ⟨true⟩ io2 m1 i1 bit1
  simp [g1, addressMatch, selectSignal, readSignal, Bit.Update, Bit.Get, d1, d2, d3]
    at m2 kb2 bit2 g2
  obtain ⟨k3, e3, m3, i3, kb3, bit3, g3⟩ :=
    KeyboardAdapter.tick_spec k2 mb io2 ⟨true⟩ io3 m2 i2 bit2
  simp [g2] at m3
  refine ⟨k1, k2, k3, e1, e2, e3, m1, m2, ?_, ?_⟩
  · rw [m3, kb2, kb1, hkey]
  · rw [m3, kb2, kb1, hkey]
    simp [Bus.toNat_SetValue, BUS_WIDTH]

/-- C1, witness: the amended scenario run on a freshly connected adapter with the address
word on the main bus. -/
theorem C1_key_code_delivered_on_third_tick_witness :
    ((freshAdapter 65).setMainBus keyboardAddress).andGate4.Output = false ∧
    ∃ k1 k2 k3, ((freshAdapter 65).setMainBus keyboardAddress).tick selectLines = some k1 ∧
      k1.tick scenarioDataPhase = some k2 ∧ k2.tick scenarioDataPhase = some k3 ∧
      k1.mainBus = some keyboardAddress ∧ k2.mainBus = some keyboardAddress ∧
      k3.mainBus = some ((NewBus BUS_WIDTH).SetValue 65) ∧
      k3.mainBus.map Bus.toNat = some 65 :=
  ⟨rfl, C1_key_code_delivered_on_third_tick ((freshAdapter 65).setMainBus keyboardAddress)
    keyboardAddress
    { clockSet := false, clockEnable := false, mode := false, dataOrAddress := false }
    ⟨false⟩ selectLines scenarioDataPhase scenarioDataPhase rfl rfl rfl rfl rfl
    (by decide) (by decide) (by decide)⟩

/-! ## C2, C3: the keyboard's handling of a key press -/

/-- C2: a key press with `IsDown = false` (any value) leaves the keyboard, hence `outBus`,
unchanged, whatever `outBus` holds, and `Run` goes on as if the event had not been there;
in particular a key-up for code 65 after a key-down for code 65 changes nothing. -/
theorem C2_key_up_leaves_outBus_unchanged :
    (∀ (k : Keyboard) (v : Int), k.onKey ⟨v, false⟩ = some k) ∧
    (∀ (k : Keyboard) (v : Int) (rest : List Selected),
      k.Run (Selected.key ⟨v, false⟩ :: rest) = k.Run rest) ∧
    (∀ (k : Keyboard),
      k.Run [Selected.key ⟨65, true⟩, Selected.key ⟨65, false⟩] =
        k.Run [Selected.key ⟨65, true⟩]) := by
  refine ⟨fun k v => ?_, fun k v rest => ?_, fun k => ?_⟩
  · simp [Keyboard.onKey]
  · simp [Keyboard.Run, Keyboard.onKey]
  · cases h : k.onKey ⟨65, true⟩ <;> simp [Keyboard.Run, Keyboard.onKey, h]

/-- C3: a key press with `IsDown = true` and value `v` sets `outBus` to `uint16(v)`: the
bus then carries `v mod 2^16`, and exactly `v` when `0 ≤ v ≤ 65535`. -/
theorem C3_key_down_sets_raw_code (bus : Bus BUS_WIDTH) (v : Int) :
    (Keyboard.mk (some bus)).onKey ⟨v, true⟩ =
      some ⟨some (bus.SetValue (uint16 v))⟩ ∧
    Keyboard.Run ⟨some bus⟩ [Selected.key ⟨v, true⟩] =
      RunResult.waiting ⟨some (bus.SetValue (uint16 v))⟩ ∧
    ((bus.SetValue (uint16 v)).toNat : Int) = v % 2 ^ 16 ∧
    (0 ≤ v → v ≤ 65535 → ((bus.SetValue (uint16 v)).toNat : Int) = v) := by
  have hnn : (0 : Int) ≤ v % 65536 := Int.emod_nonneg v (by decide)
  have hlt : v % 65536 < 65536 := Int.emod_lt_of_pos v (by decide)
  have hval : ((bus.SetValue (uint16 v)).toNat : Int) = v % 2 ^ 16 := by
    rw [Bus.toNat_SetValue]
    have h1 : uint16 v % 2 ^ BUS_WIDTH = uint16 v := by
      apply Nat.mod_eq_of_lt
      unfold uint16
      have : ((v % 65536).toNat : Int) < 65536 := by rw [Int.toNat_of_nonneg hnn]; exact hlt
      simp only [BUS_WIDTH]
      omega
    rw [h1]
    unfold uint16
    rw [Int.toNat_of_nonneg hnn]
    norm_num
  refine ⟨by simp [Keyboard.onKey], by simp [Keyboard.Run, Keyboard.onKey], hval, ?_⟩
  intro h0 h1
  rw [hval]
  apply Int.emod_eq_of_lt h0
  norm_num
  omega

/-- C3, witness: the key code 65 and the out-of-range value 65601 = 65536 + 65. -/
theorem C3_key_down_sets_raw_code_witness :
    (((NewBus BUS_WIDTH).SetValue (uint16 65)).toNat : Int) = 65 ∧
    (((NewBus BUS_WIDTH).SetValue (uint16 65601)).toNat : Int) = 65601 % 2 ^ 16 :=
  ⟨(C3_key_down_sets_raw_code (NewBus BUS_WIDTH) 65).2.2.2 (by decide) (by decide),
    (C3_key_down_sets_raw_code (NewBus BUS_WIDTH) 65601).2.2.1⟩

/-- A freshly connected adapter is reachable, with no `Update` run yet. -/
theorem freshAdapter_reachable (code : Nat) :
    KeyboardAdapter.Reachable false (freshAdapter code) :=
  KeyboardAdapter.Reachable.setKeyboardInBus _ _ _
    (KeyboardAdapter.Reachable.connect (NewBus BUS_WIDTH) _ _ _)

/-- A freshly connected adapter whose new `andGate4` shows the output true is reachable,
with no `Update` run yet. -/
theorem freshAdapterGateOn_reachable (code : Nat) :
    KeyboardAdapter.Reachable false (freshAdapterGateOn code) :=
  KeyboardAdapter.Reachable.setKeyboardInBus _ _ _
    (KeyboardAdapter.Reachable.connect (NewBus BUS_WIDTH) _ _ _)

/-- The selected adapter is reachable: it is the result of two ticks. -/
theorem selectedAdapter_reachable (code : Nat) :
    KeyboardAdapter.Reachable true (selectedAdapter code) := by
  obtain ⟨k1, e1, m1, i1, _, b1, _⟩ :=
    KeyboardAdapter.tick_spec ((freshAdapter code).setMainBus keyboardAddress)
      keyboardAddress idleLines ⟨false⟩ selectLines rfl rfl rfl
  obtain ⟨k2, e2, _⟩ := KeyboardAdapter.tick_spec k1 _ _ _ scenarioDataPhase m1 i1 b1
  have h : selectedAdapter code = k2 := by
    simp [selectedAdapter, addressedAdapter, e1, e2]
  rw [h]
  exact KeyboardAdapter.Reachable.update _ _ _ (KeyboardAdapter.Reachable.setIOBus _ _ _
    (KeyboardAdapter.Reachable.update _ _ _ (KeyboardAdapter.Reachable.setIOBus _ _ _
      (KeyboardAdapter.Reachable.setMainBus _ _ _ (freshAdapter_reachable code))) e1)) e2

/-- Every reachable state is connected.  Until the first `Update` after `Connect` the
memory bit is false; once `Update` has run, the read-enable gate is on only while the
memory bit is true. -/
theorem KeyboardAdapter.Reachable.inv {u : Bool} {k : KeyboardAdapter}
    (hr : KeyboardAdapter.Reachable u k) :
    (∃ mb, k.mainBus = some mb) ∧ (∃ io, k.ioBus = some io) ∧
      ∃ b, k.memoryBit = some b ∧ (u = false → b = ⟨false⟩) ∧
        (u = true → k.andGate4.Output = true → b.Get = true) := by
  induction hr with
  | connect kb io mb fresh =>
    exact ⟨⟨mb, rfl⟩, ⟨io, rfl⟩, ⟨_, rfl, fun _ => rfl, fun h => absurd h (by decide)⟩⟩
  | setIOBus u k io _ ih =>
    obtain ⟨⟨mb, hm⟩, ⟨io0, hi⟩, b, hb, hg⟩ := ih
    exact ⟨⟨mb, hm⟩, ⟨io, by simp [KeyboardAdapter.setIOBus, hi]⟩, b, hb, hg⟩
  | setMainBus u k mb1 _ ih =>
    obtain ⟨⟨mb, hm⟩, ⟨io0, hi⟩, b, hb, hg⟩ := ih
    exact ⟨⟨mb1, by simp [KeyboardAdapter.setMainBus, hm]⟩, ⟨io0, hi⟩, b, hb, hg⟩
  | setKeyboardInBus u k kb _ ih =>
    exact ih
  | update u k k1 _ hU ih =>
    obtain ⟨⟨mb, hm⟩, ⟨io0, hi⟩, b, hb, _⟩ := ih
    obtain ⟨k2, hU2, hm2, hi2, _, _, hb2, _, _, _, hg2⟩ :=
      KeyboardAdapter.Update_spec k mb io0 b hm hi hb
    rw [hU] at hU2
    cases hU2
    refine ⟨⟨_, hm2⟩, ⟨_, hi2⟩, _, hb2, fun h => absurd h (by decide), ?_⟩
    intro _ h
    rw [hg2] at h
    simp at h
    exact h.1

/-! ## C4: the register acts only while the adapter is addressed -/

/-- C4, counterexample: a freshly connected adapter whose new `andGate4` shows the output
true, with key code 65 pending and an all-zero main bus.  The state is reachable, the
memory bit is false, yet the keycode-register step is taken at the first `Update`: the
main bus then carries 65 and `KeyboardInBus` has been cleared. -/
theorem C4_register_acts_unaddressed_after_connect :
    KeyboardAdapter.Reachable false (freshAdapterGateOn 65) ∧
    (freshAdapterGateOn 65).andGate4.Output = true ∧
    (freshAdapterGateOn 65).memoryBit = some ⟨false⟩ ∧
    ((freshAdapterGateOn 65).mainBus.map Bus.toNat = some 0 ∧
      ((freshAdapterGateOn 65).Update.bind fun k => k.mainBus).map Bus.toNat = some 65 ∧
      ((freshAdapterGateOn 65).Update.map fun k => k.KeyboardInBus.toNat) = some 0) :=
  ⟨freshAdapterGateOn_reachable 65, rfl, rfl, by decide⟩

/-- C4, amended: in every state reachable from `Connect` in which `Update` has run at
least once, the keycode-register step is taken (the output of `andGate4` is true at entry
of `Update`) only if the memory bit is true at that moment.  Until the first `Update` the
memory bit is false, and the same holds there provided the new `andGate4` shows the
output false.  In both cases, when the memory bit is not true, `updateKeycodeReg` is the
identity and the whole `Update` leaves the keycode register, the main bus and
`KeyboardInBus` as they were. -/
theorem C4_register_acts_only_while_addressed (u : Bool) (k : KeyboardAdapter)
    (hr : KeyboardAdapter.Reachable u k) :
    (u = false → k.memoryBit = some ⟨false⟩) ∧
    (u = true ∨ k.andGate4.Output = false →
      (k.andGate4.Output = true → k.memoryBit.map Bit.Get = some true) ∧
      (k.memoryBit.map Bit.Get ≠ some true →
        k.updateKeycodeReg = some k ∧
        ∃ k1, k.Update = some k1 ∧ k1.keycodeRegister = k.keycodeRegister ∧
          k1.mainBus = k.mainBus ∧ k1.KeyboardInBus = k.KeyboardInBus)) := by
  obtain ⟨⟨mb, hm⟩, ⟨io, hi⟩, b, hb, hfalse, hg⟩ := hr.inv
  refine ⟨fun h => by rw [hb, hfalse h], fun hcase => ?_⟩
  have key : k.andGate4.Output = true → k.memoryBit.map Bit.Get = some true := by
    intro h
    rcases hcase with hu | hoff
    · simp [hb, hg hu h]
    · rw [hoff] at h; exact absurd h (by decide)
  refine ⟨key, fun hne => ?_⟩
  have hidle : k.andGate4.Output = false := by
    cases h : k.andGate4.Output
    · rfl
    · exact absurd (key h) hne
  refine ⟨KeyboardAdapter.updateKeycodeReg_idle k hidle, ?_⟩
  obtain ⟨k1, hU, hm1, _, hk1, hr1, _⟩ := KeyboardAdapter.Update_spec k mb io b hm hi hb
  refine ⟨k1, hU, ?_, ?_, ?_⟩
  · simpa [hidle] using hr1
  · simpa [hidle, hm] using hm1
  · simpa [hidle] using hk1

/-- C4, witness: the selected adapter is reachable through two updates and its
read-enable gate is on; its memory bit is true.  The freshly connected adapter whose
gates show the output false has a false memory bit. -/
theorem C4_register_acts_only_while_addressed_witness :
    KeyboardAdapter.Reachable true (selectedAdapter 65) ∧
    (selectedAdapter 65).andGate4.Output = true ∧
    (selectedAdapter 65).memoryBit.map Bit.Get = some true ∧
    KeyboardAdapter.Reachable false (freshAdapter 65) ∧
    (freshAdapter 65).memoryBit = some ⟨false⟩ :=
  ⟨selectedAdapter_reachable 65, rfl,
    ((C4_register_acts_only_while_addressed true (selectedAdapter 65)
      (selectedAdapter_reachable 65)).2 (Or.inl rfl)).1 rfl,
    freshAdapter_reachable 65,
    (C4_register_acts_only_while_addressed false (freshAdapter 65)
      (freshAdapter_reachable 65)).1 rfl⟩

/-! ## C5: the register carries the key code onto the main bus -/

/-- C5: for a connected adapter whose read-enable gate is on at entry, after `Update` the
main bus carries the content `KeyboardInBus` had at entry, wire for wire; for a 16-bit
value `V` on `KeyboardInBus` the main bus carries `V`.  Inside the register step the main
bus carries that content after the armed and enabled update, still carries it after the
register is disabled and updated again (with `KeyboardInBus` cleared), and after the last
update. -/
theorem C5_register_transfers_key_code (k : KeyboardAdapter) (mb : Bus BUS_WIDTH)
    (io : IOBus) (b : Bit) (hmb : k.mainBus = some mb) (hio : k.ioBus = some io)
    (hbit : k.memoryBit = some b) (hfire : k.andGate4.Output = true) :
    ∃ k1, k.Update = some k1 ∧ k1.mainBus = some k.KeyboardInBus ∧
      (∀ V : Nat, V < 2 ^ 16 → k.KeyboardInBus = (NewBus BUS_WIDTH).SetValue V →
        k1.mainBus = some ((NewBus BUS_WIDTH).SetValue V) ∧
        k1.mainBus.map Bus.toNat = some V) ∧
      ((k.keycodeRegister.Set.Enable.Update k.KeyboardInBus mb).2 = k.KeyboardInBus ∧
        ((k.keycodeRegister.Set.Enable.Update k.KeyboardInBus mb).1.Disable.Update
          (k.KeyboardInBus.SetValue 0) k.KeyboardInBus).2 = k.KeyboardInBus ∧
        (((k.keycodeRegister.Set.Enable.Update k.KeyboardInBus mb).1.Disable.Update
          (k.KeyboardInBus.SetValue 0) k.KeyboardInBus).1.Unset.Update
          (k.KeyboardInBus.SetValue 0) k.KeyboardInBus).2 = k.KeyboardInBus) := by
  obtain ⟨k1, hU, hm1, _⟩ := KeyboardAdapter.Update_spec k mb io b hmb hio hbit
  simp only [hfire, if_true] at hm1
  refine ⟨k1, hU, hm1, ?_, ?_⟩
  · intro V hV hkb
    rw [hm1, hkb]
    refine ⟨rfl, ?_⟩
    simp only [Option.map_some', Bus.toNat_SetValue, BUS_WIDTH]
    rw [Nat.mod_eq_of_lt hV]
  · simp [Register.Set, Register.Enable, Register.Disable, Register.Unset, Register.Update,
      Bit.Update, Bit.Get, Bus.GetOutputWire]


/-- C5, witness: the selected adapter with key code 65 pending. -/
theorem C5_register_transfers_key_code_witness :
    (selectedAdapter 65).andGate4.Output = true ∧
    ∃ k1, (selectedAdapter 65).Update = some k1 ∧
      k1.mainBus = some ((NewBus BUS_WIDTH).SetValue 65) ∧
      k1.mainBus.map Bus.toNat = some 65 := by
  obtain ⟨k1, hU, _, hV, _⟩ :=
    C5_register_transfers_key_code (selectedAdapter 65) keyboardAddress scenarioDataPhase
      ⟨true⟩ rfl rfl rfl rfl
  exact ⟨rfl, k1, hU, hV 65 (by decide) rfl⟩

/-! ## C6: which tick decides that the register acts -/

/-- C6, counterexample: at the `Update` that follows the address phase the memory bit is
true and the IOBus carries CLOCK_ENABLE=1, DATA_OR_ADDRESS=0, MODE=0, yet the
keycode-register step is not taken (`andGate4` is false at entry): after that `Update` the
main bus still carries the address word 61440 and `KeyboardInBus` still carries 65.
Conversely, at the next `Update` no IOBus line is asserted, yet the step is taken and the
main bus carries 65. -/
theorem C6_register_ignores_current_lines :
    ((addressedAdapter 65).bind fun k => k.memoryBit) = some ⟨true⟩ ∧
    ((addressedAdapter 65).map fun k => k.andGate4.Output) = some false ∧
    (((addressedAdapter 65).bind fun k => k.tick scenarioDataPhase).bind
      fun k => k.mainBus).map Bus.toNat = some 61440 ∧
    (((addressedAdapter 65).bind fun k => k.tick scenarioDataPhase).map
      fun k => k.KeyboardInBus.toNat) = some 65 ∧
    (selectedAdapter 65).andGate4.Output = true ∧
    (((selectedAdapter 65).tick idleLines).bind fun k => k.mainBus).map Bus.toNat =
      some 65 := by
  decide

/-- C6, amended: the keycode-register step of an `Update` is taken if and only if the
output of `andGate4` computed by the previous `Update` is true, that is, if and only if
the memory bit held at that `Update` is true and the IOBus carried CLOCK_ENABLE=1,
DATA_OR_ADDRESS=0, MODE=0 at the previous `Update`.  Whatever the other components write
on the IOBus, the main bus and `KeyboardInBus` between the two updates does not enter the
decision; when the step is taken the main bus receives the content of `KeyboardInBus` and
`KeyboardInBus` is cleared, otherwise `updateKeycodeReg` changes nothing. -/
theorem C6_register_decision_from_previous_decode (k : KeyboardAdapter)
    (mb : Bus BUS_WIDTH) (io : IOBus) (b : Bit) (hmb : k.mainBus = some mb)
    (hio : k.ioBus = some io) (hbit : k.memoryBit = some b)
    (io1 : IOBus) (mb1 kb1 : Bus BUS_WIDTH) :
    ∃ k1 b1, k.Update = some k1 ∧ k1.memoryBit = some b1 ∧
      (((k1.setIOBus io1).setMainBus mb1).setKeyboardInBus kb1).memoryBit = some b1 ∧
      (((k1.setIOBus io1).setMainBus mb1).setKeyboardInBus kb1).andGate4.Output =
        (b1.Get && (io.clockEnable && !io.dataOrAddress && !io.mode)) ∧
      ((b1.Get && (io.clockEnable && !io.dataOrAddress && !io.mode)) = true →
        ∃ k3, (((k1.setIOBus io1).setMainBus mb1).setKeyboardInBus kb1).updateKeycodeReg =
            some k3 ∧
          k3.mainBus = some kb1 ∧ k3.KeyboardInBus = kb1.SetValue 0 ∧
          k3.keycodeRegister.bits = fun _ => ⟨false⟩) ∧
      ((b1.Get && (io.clockEnable && !io.dataOrAddress && !io.mode)) = false →
        (((k1.setIOBus io1).setMainBus mb1).setKeyboardInBus kb1).updateKeycodeReg =
          some (((k1.setIOBus io1).setMainBus mb1).setKeyboardInBus kb1)) := by
  obtain ⟨k1, hU, hm1, hi1, _, _, hb1, _, _, _, hg1⟩ :=
    KeyboardAdapter.Update_spec k mb io b hmb hio hbit
  have hg : (((k1.setIOBus io1).setMainBus mb1).setKeyboardInBus kb1).andGate4.Output =
      k1.andGate4.Output := rfl
  refine ⟨k1, _, hU, hb1, hb1, ?_, ?_, ?_⟩
  · rw [hg, hg1]; rfl
  · intro h
    have hf : (((k1.setIOBus io1).setMainBus mb1).setKeyboardInBus kb1).andGate4.Output =
        true := by rw [hg, hg1]; exact h
    refine ⟨_, KeyboardAdapter.updateKeycodeReg_fire _ mb1 hf ?_, rfl, rfl, rfl⟩
    simp [KeyboardAdapter.setKeyboardInBus, KeyboardAdapter.setMainBus,
      KeyboardAdapter.setIOBus, hm1]
  · intro h
    apply KeyboardAdapter.updateKeycodeReg_idle
    rw [hg, hg1]; exact h

/-- C6, witness: the selected adapter (memory bit true, data phase on the IOBus); after
its `Update` the decision for the next register step is fixed, whatever is written on the
buses next. -/
theorem C6_register_decision_from_previous_decode_witness :
    ∃ k1 b1, (selectedAdapter 65).Update = some k1 ∧ k1.memoryBit = some b1 ∧
      (((k1.setIOBus idleLines).setMainBus keyboardAddress).setKeyboardInBus
        ((NewBus BUS_WIDTH).SetValue 66)).memoryBit = some b1 ∧
      (((k1.setIOBus idleLines).setMainBus keyboardAddress).setKeyboardInBus
        ((NewBus BUS_WIDTH).SetValue 66)).andGate4.Output =
        (b1.Get && (scenarioDataPhase.clockEnable && !scenarioDataPhase.dataOrAddress &&
          !scenarioDataPhase.mode)) ∧
      ((b1.Get && (scenarioDataPhase.clockEnable && !scenarioDataPhase.dataOrAddress &&
          !scenarioDataPhase.mode)) = true →
        ∃ k3, (((k1.setIOBus idleLines).setMainBus keyboardAddress).setKeyboardInBus
            ((NewBus BUS_WIDTH).SetValue 66)).updateKeycodeReg = some k3 ∧
          k3.mainBus = some ((NewBus BUS_WIDTH).SetValue 66) ∧
          k3.KeyboardInBus = ((NewBus BUS_WIDTH).SetValue 66).SetValue 0 ∧
          k3.keycodeRegister.bits = fun _ => ⟨false⟩) ∧
      ((b1.Get && (scenarioDataPhase.clockEnable && !scenarioDataPhase.dataOrAddress &&
          !scenarioDataPhase.mode)) = false →
        (((k1.setIOBus idleLines).setMainBus keyboardAddress).setKeyboardInBus
          ((NewBus BUS_WIDTH).SetValue 66)).updateKeycodeReg =
          some (((k1.setIOBus idleLines).setMainBus keyboardAddress).setKeyboardInBus
            ((NewBus BUS_WIDTH).SetValue 66))) :=
  C6_register_decision_from_previous_decode (selectedAdapter 65) keyboardAddress
    scenarioDataPhase ⟨true⟩ rfl rfl rfl idleLines keyboardAddress
    ((NewBus BUS_WIDTH).SetValue 66)

/-! ## C7, C8: the memory bit and the address-match gate -/

/-- C7: after `Update` of a connected adapter the memory bit equals the address-match
signal of the main bus as it stands when the decode network is evaluated (wires 8 to 11
false, wires 12 to 15 true; it is the output of `andGate1`) if CLOCK_SET, DATA_OR_ADDRESS
and MODE are all asserted, and otherwise it is the bit held before the `Update`, whatever
the main bus carries. -/
theorem C7_memory_bit_latch (k : KeyboardAdapter) (mb : Bus BUS_WIDTH) (io : IOBus)
    (b : Bit) (hmb : k.mainBus = some mb) (hio : k.ioBus = some io)
    (hbit : k.memoryBit = some b) :
    ∃ k1 mb1, k.Update = some k1 ∧ k1.mainBus = some mb1 ∧
      (io.clockSet = true ∧ io.dataOrAddress = true ∧ io.mode = true →
        k1.memoryBit = some ⟨!mb1.wires 8 && !mb1.wires 9 && !mb1.wires 10 &&
          !mb1.wires 11 && mb1.wires 12 && mb1.wires 13 && mb1.wires 14 && mb1.wires 15⟩ ∧
        k1.memoryBit.map Bit.Get = some k1.andGate1.Output) ∧
      (¬ (io.clockSet = true ∧ io.dataOrAddress = true ∧ io.mode = true) →
        k1.memoryBit = some b) := by
  obtain ⟨k1, hU, hm1, _, _, _, hb1, hg1, _⟩ :=
    KeyboardAdapter.Update_spec k mb io b hmb hio hbit
  refine ⟨k1, _, hU, hm1, ?_, ?_⟩
  · rintro ⟨h1, h2, h3⟩
    rw [hb1, hg1]
    simp [selectSignal, h1, h2, h3, Bit.Update, Bit.Get, addressMatch]
  · intro h
    rw [hb1]
    have : selectSignal io = false := by
      simp only [selectSignal]
      cases h1 : io.clockSet <;> cases h2 : io.dataOrAddress <;> cases h3 : io.mode <;>
        simp_all
    simp [this, Bit.Update]

/-- C7, witness: the address phase on a freshly connected adapter. -/
theorem C7_memory_bit_latch_witness :
    ∃ k1 mb1, (((freshAdapter 65).setMainBus keyboardAddress).setIOBus selectLines).Update =
        some k1 ∧ k1.mainBus = some mb1 ∧
      (selectLines.clockSet = true ∧ selectLines.dataOrAddress = true ∧
          selectLines.mode = true →
        k1.memoryBit = some ⟨!mb1.wires 8 && !mb1.wires 9 && !mb1.wires 10 &&
          !mb1.wires 11 && mb1.wires 12 && mb1.wires 13 && mb1.wires 14 && mb1.wires 15⟩ ∧
        k1.memoryBit.map Bit.Get = some k1.andGate1.Output) ∧
      (¬ (selectLines.clockSet = true ∧ selectLines.dataOrAddress = true ∧
          selectLines.mode = true) →
        k1.memoryBit = some ⟨false⟩) :=
  C7_memory_bit_latch (((freshAdapter 65).setMainBus keyboardAddress).setIOBus selectLines)
    keyboardAddress selectLines ⟨false⟩ rfl rfl rfl

/-- C8: after the decode step `update`, and after a whole `Update`, `andGate1` outputs
true if and only if main-bus wires 8, 9, 10 and 11 are all false and main-bus wires 12,
13, 14 and 15 are all true.  The main bus is the one the decode step reads: the main bus
as it stands after `Update`, which is the main bus at entry when the register step was
not taken. -/
theorem C8_address_match_gate (k : KeyboardAdapter) (mb : Bus BUS_WIDTH) (io : IOBus)
    (b : Bit) (hmb : k.mainBus = some mb) (hio : k.ioBus = some io)
    (hbit : k.memoryBit = some b) :
    (∃ k1, k.update = some k1 ∧ k1.mainBus = some mb ∧
      (k1.andGate1.Output = true ↔
        (mb.wires 8 = false ∧ mb.wires 9 = false ∧ mb.wires 10 = false ∧
          mb.wires 11 = false) ∧
        (mb.wires 12 = true ∧ mb.wires 13 = true ∧ mb.wires 14 = true ∧
          mb.wires 15 = true))) ∧
    (∃ k1 mb1, k.Update = some k1 ∧ k1.mainBus = some mb1 ∧
      (k.andGate4.Output = false → mb1 = mb) ∧
      (k1.andGate1.Output = true ↔
        (mb1.wires 8 = false ∧ mb1.wires 9 = false ∧ mb1.wires 10 = false ∧
          mb1.wires 11 = false) ∧
        (mb1.wires 12 = true ∧ mb1.wires 13 = true ∧ mb1.wires 14 = true ∧
          mb1.wires 15 = true))) := by
  constructor
  · rw [KeyboardAdapter.update_eq k mb io b hmb hio hbit]
    refine ⟨_, rfl, hmb, ?_⟩
    simp [ANDGate8.Output, and_assoc]
  · obtain ⟨k1, hU, hm1, _, _, _, _, hg1, _⟩ :=
      KeyboardAdapter.Update_spec k mb io b hmb hio hbit
    refine ⟨k1, _, hU, hm1, ?_, ?_⟩
    · intro h; simp [h]
    · rw [hg1]
      simp [addressMatch, and_assoc]

/-- C8, witness: the address word on the main bus of a freshly connected adapter. -/
theorem C8_address_match_gate_witness :
    ∃ k1, ((freshAdapter 65).setMainBus keyboardAddress).update = some k1 ∧
      k1.mainBus = some keyboardAddress ∧ k1.andGate1.Output = true := by
  obtain ⟨k1, hU, hm, hiff⟩ :=
    (C8_address_match_gate ((freshAdapter 65).setMainBus keyboardAddress) keyboardAddress
      idleLines ⟨false⟩ rfl rfl rfl).1
  exact ⟨k1, hU, hm, hiff.2 (by decide)⟩

/-! ## C9: an adapter that was never connected -/

/-- C9: on an adapter returned by `NewKeyboardAdapter` and not connected, whatever the
keyboard has written on `KeyboardInBus`, `Update` does not return a state: the decode
step dereferences the nil main bus. -/
theorem C9_unconnected_update_fails :
    NewKeyboardAdapter.Update = none ∧
    (∀ kb : Bus BUS_WIDTH, (NewKeyboardAdapter.setKeyboardInBus kb).Update = none) ∧
    (∀ kb : Bus BUS_WIDTH, (NewKeyboardAdapter.setKeyboardInBus kb).update = none) := by
  refine ⟨rfl, fun kb => rfl, fun kb => rfl⟩

/-! ## C10: the quit signal -/

/-- C10: when `Run` receives the quit signal it returns with the keyboard, hence `outBus`,
as it was just before: at the first tick, and after any ticks that were served. -/
theorem C10_quit_leaves_outBus :
    (∀ (k : Keyboard) (rest : List Selected),
      k.Run (Selected.quit :: rest) = RunResult.returned k) ∧
    (∀ (pre : List Selected) (k k1 : Keyboard) (rest : List Selected),
      k.Run pre = RunResult.waiting k1 →
        k.Run (pre ++ Selected.quit :: rest) = RunResult.returned k1) := by
  refine ⟨fun k rest => rfl, fun pre => ?_⟩
  induction pre with
  | nil =>
    intro k k1 rest h
    simp [Keyboard.Run] at h
    simp [Keyboard.Run, h]
  | cons e t ih =>
    intro k k1 rest h
    cases e with
    | quit => simp [Keyboard.Run] at h
    | key x =>
      cases hx : k.onKey x with
      | none => simp [Keyboard.Run, hx] at h
      | some k2 =>
        simp only [Keyboard.Run, hx, List.cons_append] at h ⊢
        exact ih k2 k1 rest h


/-- C10, witness: a key-down for 65, then the quit signal, then a key press that is never
read. -/
theorem C10_quit_leaves_outBus_witness :
    Keyboard.Run ⟨some (NewBus BUS_WIDTH)⟩
        ([Selected.key ⟨65, true⟩] ++ Selected.quit :: [Selected.key ⟨66, true⟩]) =
      RunResult.returned ⟨some ((NewBus BUS_WIDTH).SetValue (uint16 65))⟩ :=
  C10_quit_leaves_outBus.2 [Selected.key ⟨65, true⟩] ⟨some (NewBus BUS_WIDTH)⟩
    ⟨some ((NewBus BUS_WIDTH).SetValue (uint16 65))⟩ [Selected.key ⟨66, true⟩] rfl

/-! ## C11: the decode step is idempotent -/

/-- A bit updated twice with the same value and set line is the bit updated once. -/
theorem Bit.Update_Update (b : Bit) (v s : Bool) :
    (b.Update v s).Update v s = b.Update v s := by
  cases s <;> simp [Bit.Update]

/-- C11: on a connected adapter with the main bus and the IOBus held fixed, running the
decode step `update` twice yields the state that running it once yields: the same outputs
of `andGate1` to `andGate4` and of the six NOT gates, and the same memory bit. -/
theorem C11_update_idempotent (k : KeyboardAdapter) (mb : Bus BUS_WIDTH) (io : IOBus)
    (b : Bit) (hmb : k.mainBus = some mb) (hio : k.ioBus = some io)
    (hbit : k.memoryBit = some b) :
    ∃ k1, k.update = some k1 ∧ k1.update = some k1 ∧
      k.update.bind KeyboardAdapter.update = k.update := by
  have h1 := KeyboardAdapter.update_eq k mb io b hmb hio hbit
  have h2 : ∀ k1, k.update = some k1 → k1.update = some k1 := by
    intro k1 hk1
    rw [h1] at hk1
    cases hk1
    simp [KeyboardAdapter.update, hmb, hio, Function.update_apply, NOTGate.Update,
      NOTGate.Output, ANDGate8.Update, ANDGate8.Output, ANDGate3.Update, ANDGate3.Output,
      ANDGate.Update, ANDGate.Output, Bus.GetOutputWire, IOBus.GetOutputWire,
      Bit.Update_Update]
    constructor
    · funext i; fin_cases i <;> simp [Function.update_apply]
    · funext i; fin_cases i <;> simp [Function.update_apply]
  refine ⟨_, h1, h2 _ h1, ?_⟩
  rw [h1, Option.some_bind]
  exact h2 _ h1

/-- C11, witness: the decode step on a freshly connected adapter with the address word on
the main bus and the select lines on the IOBus. -/
theorem C11_update_idempotent_witness :
    ∃ k1, (((freshAdapter 65).setMainBus keyboardAddress).setIOBus selectLines).update =
        some k1 ∧ k1.update = some k1 ∧
      (((freshAdapter 65).setMainBus keyboardAddress).setIOBus selectLines).update.bind
          KeyboardAdapter.update =
        (((freshAdapter 65).setMainBus keyboardAddress).setIOBus selectLines).update :=
  C11_update_idempotent (((freshAdapter 65).setMainBus keyboardAddress).setIOBus selectLines)
    keyboardAddress selectLines ⟨false⟩ rfl rfl rfl

/-! ## C12: one event per tick -/


/-- An iteration that ends waiting for the next tick has received the head of the queue. -/
theorem Keyboard.tick_waiting (k : Keyboard) (q p : Bool) (pending : List KeyPress)
    (k1 : Keyboard) (pending1 : List KeyPress)
    (h : k.tick q p pending = TickResult.waiting k1 pending1) :
    ∃ head, pending = head :: pending1 ∧ k.onKey head = some k1 := by
  unfold Keyboard.tick at h
  cases pending with
  | nil =>
    cases q <;> simp [Keyboard.select] at h
  | cons key rest =>
    by_cases hq : (q && p) = true
    · simp [Keyboard.select, hq] at h
    · cases hk : k.onKey key with
      | none => simp [Keyboard.select, hq, hk] at h
      | some k2 =>
        simp [Keyboard.select, hq, hk] at h
        exact ⟨key, by rw [h.2], by rw [hk, h.1]⟩

/-- C12: an iteration of the loop of `Run` that does not stop receives exactly the head of
the queue of key presses and leaves the events behind it pending, in order; the keyboard
it leaves is either unchanged or has `outBus` set once, to the code of that head (at most
one `SetValue`).  An iteration whose `select` blocks receives nothing and writes nothing.
Over a sequence of ticks none of which stops, as many events are consumed as there are
ticks, from the front of the queue. -/
theorem C12_tick_consumes_at_most_one_event :
    (∀ (k : Keyboard) (q p : Bool) (pending : List KeyPress) (k1 : Keyboard)
        (pending1 : List KeyPress),
      k.tick q p pending = TickResult.waiting k1 pending1 →
        ∃ head, pending = head :: pending1 ∧ k.onKey head = some k1 ∧
          (k1 = k ∨ ∃ b, k.outBus = some b ∧
            k1.outBus = some (b.SetValue (uint16 head.Value)))) ∧
    (∀ (k : Keyboard) (q p : Bool) (pending : List KeyPress) (k1 : Keyboard)
        (pending1 : List KeyPress),
      k.tick q p pending = TickResult.blocked k1 pending1 →
        k1 = k ∧ pending1 = pending ∧ pending = []) ∧
    (∀ (sched : List (Bool × Bool)) (k : Keyboard) (pending : List KeyPress)
        (k1 : Keyboard) (pending1 : List KeyPress),
      k.runTicks pending sched = TickResult.waiting k1 pending1 →
        sched.length ≤ pending.length ∧ pending1 = pending.drop sched.length) := by
  refine ⟨?_, ?_, ?_⟩
  · intro k q p pending k1 pending1 h
    obtain ⟨head, hp, hk⟩ := Keyboard.tick_waiting k q p pending k1 pending1 h
    refine ⟨head, hp, hk, ?_⟩
    unfold Keyboard.onKey at hk
    cases hd : head.IsDown with
    | false =>
      simp [hd] at hk
      exact Or.inl hk.symm
    | true =>
      cases hb : k.outBus with
      | none => simp [hd, hb] at hk
      | some b =>
        simp [hd, hb] at hk
        exact Or.inr ⟨b, rfl, by rw [← hk]⟩
  · intro k q p pending k1 pending1 h
    unfold Keyboard.tick at h
    cases pending with
    | nil =>
      cases q <;> simp [Keyboard.select] at h
      exact ⟨h.1.symm, h.2, rfl⟩
    | cons key rest =>
      by_cases hq : (q && p) = true
      · simp [Keyboard.select, hq] at h
      · cases hk : k.onKey key <;> simp [Keyboard.select, hq, hk] at h
  · intro sched
    induction sched with
    | nil =>
      intro k pending k1 pending1 h
      simp [Keyboard.runTicks] at h
      simp [h.2]
    | cons s rest ih =>
      intro k pending k1 pending1 h
      obtain ⟨q, p⟩ := s
      unfold Keyboard.runTicks at h
      cases ht : k.tick q p pending with
      | waiting k2 pending2 =>
        rw [ht] at h
        obtain ⟨head, hp, _⟩ := Keyboard.tick_waiting k q p pending k2 pending2 ht
        obtain ⟨hl, hd⟩ := ih k2 pending2 k1 pending1 h
        subst hp
        simp only [List.length_cons, List.drop_succ_cons]
        exact ⟨Nat.succ_le_succ hl, hd⟩
      | blocked k2 pending2 => rw [ht] at h; simp at h
      | returned k2 pending2 => rw [ht] at h; simp at h
      | panicked => rw [ht] at h; simp at h


/-- C12, witness: a key-down and a key-up for code 65 are pending; the first tick takes
the key-down and leaves the key-up, two ticks empty the queue. -/
theorem C12_tick_consumes_at_most_one_event_witness :
    (∃ head, [KeyPress.mk 65 true, KeyPress.mk 65 false] = head :: [KeyPress.mk 65 false] ∧
      (Keyboard.mk (some (NewBus BUS_WIDTH))).onKey head =
        some ⟨some ((NewBus BUS_WIDTH).SetValue (uint16 65))⟩ ∧
      ((Keyboard.mk (some ((NewBus BUS_WIDTH).SetValue (uint16 65)))) =
          Keyboard.mk (some (NewBus BUS_WIDTH)) ∨
        ∃ b, (Keyboard.mk (some (NewBus BUS_WIDTH))).outBus = some b ∧
          (Keyboard.mk (some ((NewBus BUS_WIDTH).SetValue (uint16 65)))).outBus =
            some (b.SetValue (uint16 head.Value)))) ∧
    ([(false, false), (false, false)].length ≤
        [KeyPress.mk 65 true, KeyPress.mk 65 false].length ∧
      ([] : List KeyPress) = [KeyPress.mk 65 true, KeyPress.mk 65 false].drop
        [(false, false), (false, false)].length) :=
  ⟨C12_tick_consumes_at_most_one_event.1 ⟨some (NewBus BUS_WIDTH)⟩ false false
      [⟨65, true⟩, ⟨65, false⟩] ⟨some ((NewBus BUS_WIDTH).SetValue (uint16 65))⟩
      [⟨65, false⟩] rfl,
    C12_tick_consumes_at_most_one_event.2.2 [(false, false), (false, false)]
      ⟨some (NewBus BUS_WIDTH)⟩ [⟨65, true⟩, ⟨65, false⟩]
      ⟨some ((NewBus BUS_WIDTH).SetValue (uint16 65))⟩ [] rfl⟩


/-! ## C13 to C15: what one `Update` changes -/

/-- C13: for a connected adapter whose read-enable gate is on at entry, whatever
`KeyboardInBus` holds, after `Update` the key code has been cleared: `KeyboardInBus`
carries 0 (every wire false), every bit of the keycode register is false, and the register
is left with its set and enable flags off. -/
theorem C13_key_code_cleared (k : KeyboardAdapter) (mb : Bus BUS_WIDTH) (io : IOBus) (b : Bit)
    (hmb : k.mainBus = some mb) (hio : k.ioBus = some io) (hbit : k.memoryBit = some b)
    (hfire : k.andGate4.Output = true) :
    ∃ k1, k.Update = some k1 ∧
      k1.KeyboardInBus = k.KeyboardInBus.SetValue 0 ∧
      (∀ i, k1.KeyboardInBus.wires i = false) ∧ k1.KeyboardInBus.toNat = 0 ∧
      (∀ i, (k1.keycodeRegister.bits i).Get = false) ∧
      k1.keycodeRegister.set = false ∧ k1.keycodeRegister.enable = false := by
  obtain ⟨k1, hU, _, _, hk, hr, _⟩ := KeyboardAdapter.Update_spec k mb io b hmb hio hbit
  simp only [hfire, if_true] at hk hr
  refine ⟨k1, hU, hk, ?_, ?_, ?_, ?_, ?_⟩
  · intro i; rw [hk]; simp [Bus.SetValue]
  · rw [hk, Bus.toNat_SetValue]; simp
  · intro i; rw [hr]; rfl
  · rw [hr]
  · rw [hr]

/-- C13, witness: the selected adapter with key code 65 pending. -/
theorem C13_key_code_cleared_witness :
    (selectedAdapter 65).KeyboardInBus.toNat = 65 ∧
    ∃ k1, (selectedAdapter 65).Update = some k1 ∧ k1.KeyboardInBus.toNat = 0 ∧
      (∀ i, (k1.keycodeRegister.bits i).Get = false) ∧
      k1.keycodeRegister.set = false ∧ k1.keycodeRegister.enable = false := by
  obtain ⟨k1, hU, _, _, h0, hb, hs, he⟩ :=
    C13_key_code_cleared (selectedAdapter 65) keyboardAddress scenarioDataPhase ⟨true⟩
      rfl rfl rfl rfl
  exact ⟨by decide, k1, hU, h0, hb, hs, he⟩

/-- C14: after `Update` of a connected adapter the output of `andGate4` is
memoryBit AND CLOCK_ENABLE AND (NOT DATA_OR_ADDRESS) AND (NOT MODE), on the memory bit as
updated in that `Update` and the IOBus lines of that `Update`; the same value is obtained
from the memory bit held before the `Update`, and it is the same whatever CLOCK_SET is. -/
theorem C14_read_enable_gate (k : KeyboardAdapter) (mb : Bus BUS_WIDTH) (io : IOBus) (b : Bit)
    (hmb : k.mainBus = some mb) (hio : k.ioBus = some io) (hbit : k.memoryBit = some b) :
    ∃ k1 b1, k.Update = some k1 ∧ k1.memoryBit = some b1 ∧
      k1.andGate4.Output =
        (b1.Get && io.clockEnable && !io.dataOrAddress && !io.mode) ∧
      k1.andGate4.Output = (b.Get && io.clockEnable && !io.dataOrAddress && !io.mode) ∧
      ∀ clockSet : Bool, ∃ k2, (k.setIOBus { io with clockSet := clockSet }).Update = some k2 ∧
        k2.andGate4.Output = k1.andGate4.Output := by
  obtain ⟨k1, hU, _, _, _, _, hb1, _, _, _, hg⟩ :=
    KeyboardAdapter.Update_spec k mb io b hmb hio hbit
  have hold : ∀ (io1 : IOBus) (am : Bool),
      ((b.Update am (selectSignal io1)).Get && readSignal io1) =
        (b.Get && io1.clockEnable && !io1.dataOrAddress && !io1.mode) := by
    intro io1 am
    cases h1 : io1.clockSet <;> cases h2 : io1.dataOrAddress <;> cases h3 : io1.mode <;>
      simp [selectSignal, readSignal, Bit.Update, Bit.Get, h1, h2, h3, Bool.and_assoc]
  refine ⟨k1, _, hU, hb1, ?_, ?_, ?_⟩
  · rw [hg]; simp [readSignal, Bool.and_assoc]
  · rw [hg, hold]
  · intro cs
    obtain ⟨k2, hU2, _, _, _, _, _, _, _, _, hg2⟩ :=
      KeyboardAdapter.Update_spec (k.setIOBus { io with clockSet := cs }) mb
        { io with clockSet := cs } b (by simp [KeyboardAdapter.setIOBus, hmb])
        (by simp [KeyboardAdapter.setIOBus, hio]) (by simp [KeyboardAdapter.setIOBus, hbit])
    refine ⟨k2, hU2, ?_⟩
    rw [hg2, hg, hold, hold]

/-- C14, witness: the selected adapter, with the data phase on the IOBus: the gate stays
on. -/
theorem C14_read_enable_gate_witness :
    ∃ k1, (selectedAdapter 65).Update = some k1 ∧ k1.andGate4.Output = true := by
  obtain ⟨k1, _, hU, _, _, hg, _⟩ :=
    C14_read_enable_gate (selectedAdapter 65) keyboardAddress scenarioDataPhase ⟨true⟩
      rfl rfl rfl
  exact ⟨k1, hU, by rw [hg]; rfl⟩

/-- C15: for a connected adapter whose read-enable gate is off at entry, `Update` leaves
the main bus, `KeyboardInBus` and the keycode register (bits, set flag, enable flag) as
they were, whatever the buses carry; the IOBus is not written either, so only the gates
and the memory bit can differ. -/
theorem C15_idle_update_frame (k : KeyboardAdapter) (mb : Bus BUS_WIDTH) (io : IOBus) (b : Bit)
    (hmb : k.mainBus = some mb) (hio : k.ioBus = some io) (hbit : k.memoryBit = some b)
    (hidle : k.andGate4.Output = false) :
    ∃ k1, k.Update = some k1 ∧ k1.mainBus = some mb ∧
      k1.KeyboardInBus = k.KeyboardInBus ∧ k1.keycodeRegister = k.keycodeRegister ∧
      k1.ioBus = some io := by
  obtain ⟨k1, hU, hm, hi, hk, hr, _⟩ := KeyboardAdapter.Update_spec k mb io b hmb hio hbit
  simp only [hidle, Bool.false_eq_true, if_false] at hm hk hr
  exact ⟨k1, hU, hm, hk, hr, hi⟩

/-- C15, witness: a freshly connected adapter with key code 65 pending. -/
theorem C15_idle_update_frame_witness :
    (freshAdapter 65).andGate4.Output = false ∧
    ∃ k1, (freshAdapter 65).Update = some k1 ∧ k1.mainBus = some (NewBus BUS_WIDTH) ∧
      k1.KeyboardInBus = (freshAdapter 65).KeyboardInBus ∧
      k1.keycodeRegister = (freshAdapter 65).keycodeRegister ∧
      k1.ioBus = some idleLines :=
  ⟨rfl, C15_idle_update_frame (freshAdapter 65) (NewBus BUS_WIDTH) idleLines ⟨false⟩
    rfl rfl rfl rfl⟩

/-! ## C16, C17: delivery of a key code -/

/-- C16, counterexample: a freshly connected adapter whose new `andGate4` shows the
output true, with key code 65 pending and the address word 61440 on the main bus, ticked
with CLOCK_SET=1, DATA_OR_ADDRESS=1, MODE=1 and then with CLOCK_ENABLE=1,
DATA_OR_ADDRESS=0, MODE=0.  The main bus is not unchanged after the second `Update`: the
first `Update` has already put 65 on it. -/
theorem C16_gate_on_after_connect_changes_main_bus :
    ((freshAdapterGateOn 65).setMainBus keyboardAddress).mainBus.map Bus.toNat =
      some 61440 ∧
    ((((freshAdapterGateOn 65).setMainBus keyboardAddress).tick selectLines).bind
      fun k => k.mainBus).map Bus.toNat = some 65 ∧
    (((((freshAdapterGateOn 65).setMainBus keyboardAddress).tick selectLines).bind
      fun k => k.tick scenarioDataPhase).bind fun k => k.mainBus).map Bus.toNat =
        some 65 ∧
    (((((freshAdapterGateOn 65).setMainBus keyboardAddress).tick selectLines).bind
      fun k => k.tick scenarioDataPhase).bind fun k => k.mainBus).map Bus.toNat ≠
        some 61440 := by
  decide

/-- C16, amended: for every 16-bit value `V`, starting from a freshly connected adapter
whose new `andGate4` shows the output false, with `V` on `KeyboardInBus`: one tick with
CLOCK_SET=1, DATA_OR_ADDRESS=1, MODE=1 and a main bus whose wires 8 to 11 are false and
wires 12 to 15 are true, then one tick with CLOCK_ENABLE=1, DATA_OR_ADDRESS=0, MODE=0
leave the main bus unchanged (and `V` pending); after a third tick (whatever the IOBus
lines, in particular the same ones) the main bus carries `V` and `KeyboardInBus`
carries 0. -/
theorem C16_delivery_after_three_updates (V : Nat) (hV : V < 2 ^ 16) (io0 : IOBus)
    (mb0 mb : Bus BUS_WIDTH) (fresh : NewGateOutputs) (io1 io2 io3 : IOBus)
    (hoff : fresh.andGate4 = false)
    (haddr : mb.wires 8 = false ∧ mb.wires 9 = false ∧ mb.wires 10 = false ∧
      mb.wires 11 = false ∧ mb.wires 12 = true ∧ mb.wires 13 = true ∧ mb.wires 14 = true ∧
      mb.wires 15 = true)
    (h1 : io1.clockSet = true ∧ io1.dataOrAddress = true ∧ io1.mode = true)
    (h2 : io2.clockEnable = true ∧ io2.dataOrAddress = false ∧ io2.mode = false) :
    ∃ k1 k2 k3,
      (((NewKeyboardAdapter.Connect io0 mb0 fresh).setKeyboardInBus
        ((NewBus BUS_WIDTH).SetValue V)).setMainBus mb).tick io1 = some k1 ∧
      k1.tick io2 = some k2 ∧ k2.tick io3 = some k3 ∧
      k1.mainBus = some mb ∧ k2.mainBus = some mb ∧
      k2.KeyboardInBus = (NewBus BUS_WIDTH).SetValue V ∧
      k3.mainBus = some ((NewBus BUS_WIDTH).SetValue V) ∧
      k3.mainBus.map Bus.toNat = some V ∧
      k3.KeyboardInBus = (NewBus BUS_WIDTH).SetValue 0 ∧ k3.KeyboardInBus.toNat = 0 := by
  obtain ⟨a8, a9, a10, a11, a12, a13, a14, a15⟩ := haddr
  obtain ⟨s1, s2, s3⟩ := h1
  obtain ⟨d1, d2, d3⟩ := h2
  obtain ⟨k1, e1, m1, i1, kb1, bit1, g1⟩ :=
    KeyboardAdapter.tick_spec (((NewKeyboardAdapter.Connect io0 mb0 fresh).setKeyboardInBus
      ((NewBus BUS_WIDTH).SetValue V)).setMainBus mb) mb io0 ⟨false⟩ io1 rfl rfl rfl
  have hidle : (((NewKeyboardAdapter.Connect io0 mb0 fresh).setKeyboardInBus
      ((NewBus BUS_WIDTH).SetValue V)).setMainBus mb).andGate4.Output = false := hoff
  have hkey : (((NewKeyboardAdapter.Connect io0 mb0 fresh).setKeyboardInBus
      ((NewBus BUS_WIDTH).SetValue V)).setMainBus mb).KeyboardInBus =
      (NewBus BUS_WIDTH).SetValue V := rfl
  simp [hidle, addressMatch, selectSignal, readSignal, Bit.Update, Bit.Get, a8, a9, a10, a11,
    a12, a13, a14, a15, s1, s2, s3] at m1 kb1 bit1 g1
  obtain ⟨k2, e2, m2, i2, kb2, bit2, g2⟩ :=
    KeyboardAdapter.tick_spec k1 mb io1 ⟨true⟩ io2 m1 i1 bit1
  simp [g1, addressMatch, selectSignal, readSignal, Bit.Update, Bit.Get, d1, d2, d3]
    at m2 kb2 bit2 g2
  obtain ⟨k3, e3, m3, i3, kb3, bit3, g3⟩ :=
    KeyboardAdapter.tick_spec k2 mb io2 ⟨true⟩ io3 m2 i2 bit2
  simp only [g2, if_true] at m3 kb3
  rw [hkey] at kb1
  rw [kb1] at kb2
  rw [kb2] at m3 kb3
  refine ⟨k1, k2, k3, e1, e2, e3, m1, m2, kb2, m3, ?_, kb3, ?_⟩
  · rw [m3]
    simp only [Option.map_some', Bus.toNat_SetValue, BUS_WIDTH]
    rw [Nat.mod_eq_of_lt hV]
  · rw [kb3, Bus.toNat_SetValue]; simp

/-- C16, witness: key code 65, new gates showing the output false, the address word on
the main bus, the data phase twice. -/
theorem C16_delivery_after_three_updates_witness :
    gatesOff.andGate4 = false ∧
    ∃ k1 k2 k3,
      (((NewKeyboardAdapter.Connect idleLines (NewBus BUS_WIDTH) gatesOff).setKeyboardInBus
        ((NewBus BUS_WIDTH).SetValue 65)).setMainBus keyboardAddress).tick selectLines =
        some k1 ∧
      k1.tick scenarioDataPhase = some k2 ∧ k2.tick scenarioDataPhase = some k3 ∧
      k1.mainBus = some keyboardAddress ∧ k2.mainBus = some keyboardAddress ∧
      k2.KeyboardInBus = (NewBus BUS_WIDTH).SetValue 65 ∧
      k3.mainBus = some ((NewBus BUS_WIDTH).SetValue 65) ∧
      k3.mainBus.map Bus.toNat = some 65 ∧
      k3.KeyboardInBus = (NewBus BUS_WIDTH).SetValue 0 ∧ k3.KeyboardInBus.toNat = 0 :=
  ⟨rfl, C16_delivery_after_three_updates 65 (by decide) idleLines (NewBus BUS_WIDTH)
    keyboardAddress gatesOff selectLines scenarioDataPhase scenarioDataPhase rfl
    (by decide) (by decide) (by decide)⟩

/-- C17: a key code is delivered at most once.  For a connected adapter with the memory
bit true and the read-enable gate on at entry, a tick with CLOCK_ENABLE=1,
DATA_OR_ADDRESS=0, MODE=0 puts the content of `KeyboardInBus` (the value `V`) on the main
bus, and the next tick (whatever the IOBus lines, in particular the same ones), with
`KeyboardInBus` not written in between, puts 0 on the main bus. -/
theorem C17_key_code_delivered_once (k : KeyboardAdapter) (mb : Bus BUS_WIDTH) (io : IOBus) (b : Bit)
    (io1 io2 : IOBus)
    (hmb : k.mainBus = some mb) (hio : k.ioBus = some io) (hbit : k.memoryBit = some b)
    (hsel : b.Get = true) (hfire : k.andGate4.Output = true)
    (h1 : io1.clockEnable = true ∧ io1.dataOrAddress = false ∧ io1.mode = false) :
    ∃ k1 k2, k.tick io1 = some k1 ∧ k1.tick io2 = some k2 ∧
      k1.mainBus = some k.KeyboardInBus ∧
      k2.mainBus = some ((NewBus BUS_WIDTH).SetValue 0) ∧
      k2.mainBus.map Bus.toNat = some 0 ∧
      ∀ V : Nat, V < 2 ^ 16 → k.KeyboardInBus = (NewBus BUS_WIDTH).SetValue V →
        k1.mainBus.map Bus.toNat = some V := by
  obtain ⟨d1, d2, d3⟩ := h1
  obtain ⟨k1, e1, m1, i1, kb1, bit1, g1⟩ :=
    KeyboardAdapter.tick_spec k mb io b io1 hmb hio hbit
  have hb : b = ⟨true⟩ := by cases b; simp [Bit.Get] at hsel; simp [hsel]
  subst hb
  simp [hfire, selectSignal, readSignal, Bit.Update, Bit.Get, d1, d2, d3] at m1 kb1 bit1 g1
  obtain ⟨k2, e2, m2, i2, kb2, bit2, g2⟩ :=
    KeyboardAdapter.tick_spec k1 k.KeyboardInBus io1 ⟨true⟩ io2 m1 i1 bit1
  simp only [g1, if_true] at m2
  rw [kb1] at m2
  refine ⟨k1, k2, e1, e2, m1, m2, ?_, ?_⟩
  · rw [m2]; simp [Bus.toNat_SetValue]
  · intro V hV hk
    rw [m1, hk]
    simp only [Option.map_some', Bus.toNat_SetValue, BUS_WIDTH]
    rw [Nat.mod_eq_of_lt hV]

/-- C17, witness: the selected adapter with key code 65 pending. -/
theorem C17_key_code_delivered_once_witness :
    ∃ k1 k2, (selectedAdapter 65).tick scenarioDataPhase = some k1 ∧
      k1.tick scenarioDataPhase = some k2 ∧
      k1.mainBus.map Bus.toNat = some 65 ∧ k2.mainBus.map Bus.toNat = some 0 := by
  obtain ⟨k1, k2, e1, e2, _, _, h0, hV⟩ :=
    C17_key_code_delivered_once (selectedAdapter 65) keyboardAddress scenarioDataPhase
      ⟨true⟩ scenarioDataPhase scenarioDataPhase rfl rfl rfl rfl rfl (by decide)
  exact ⟨k1, k2, e1, e2, hV 65 (by decide) rfl, h0⟩

/-! ## C18: the adapter starts unselected -/

/-- C18, counterexample: a freshly connected adapter whose new `andGate4` shows the
output true, with key code 66 pending and an all-zero main bus: immediately after
`Connect` the output of the read-enable gate is true, and the first `Update` changes both
the main bus (from 0 to 66) and `KeyboardInBus` (from 66 to 0). -/
theorem C18_gate_on_after_connect_first_update_writes :
    (freshAdapterGateOn 66).andGate4.Output = true ∧
    (freshAdapterGateOn 66).mainBus.map Bus.toNat = some 0 ∧
    (freshAdapterGateOn 66).KeyboardInBus.toNat = 66 ∧
    ((freshAdapterGateOn 66).Update.bind fun k => k.mainBus).map Bus.toNat = some 66 ∧
    ((freshAdapterGateOn 66).Update.map fun k => k.KeyboardInBus.toNat) = some 0 := by
  decide

/-- C18, amended: immediately after `Connect` (on any adapter, with any buses) the memory
bit is false, as `Update(false, true)` then `Update(false, false)` leave any bit; the
output of the read-enable gate is the output that the new `andGate4` shows before its
first update.  If that output is false the adapter starts unselected: the first `Update`
after `Connect` leaves the main bus and `KeyboardInBus` as they are, also when the other
components have written the three buses in between. -/
theorem C18_starts_unselected (k : KeyboardAdapter) (io : IOBus) (mb : Bus BUS_WIDTH)
    (fresh : NewGateOutputs) :
    (k.Connect io mb fresh).memoryBit = some ⟨false⟩ ∧
    (∀ b : Bit, (b.Update false true).Update false false = ⟨false⟩) ∧
    (k.Connect io mb fresh).andGate4.Output = fresh.andGate4 ∧
    (fresh.andGate4 = false →
      (∃ k1, (k.Connect io mb fresh).Update = some k1 ∧ k1.mainBus = some mb ∧
        k1.KeyboardInBus = k.KeyboardInBus) ∧
      ∀ (io1 : IOBus) (mb1 kb1 : Bus BUS_WIDTH),
        ∃ k1, ((((k.Connect io mb fresh).setIOBus io1).setMainBus mb1).setKeyboardInBus
            kb1).Update = some k1 ∧
          k1.mainBus = some mb1 ∧ k1.KeyboardInBus = kb1) := by
  refine ⟨rfl, ?_, rfl, fun hoff => ⟨?_, ?_⟩⟩
  · intro b; simp [Bit.Update]
  · obtain ⟨k1, hU, hm, _, hk, _⟩ :=
      KeyboardAdapter.Update_spec (k.Connect io mb fresh) mb io ⟨false⟩ rfl rfl rfl
    have hidle : (k.Connect io mb fresh).andGate4.Output = false := hoff
    simp only [hidle, Bool.false_eq_true, if_false] at hm hk
    exact ⟨k1, hU, hm, hk⟩
  · intro io1 mb1 kb1
    obtain ⟨k1, hU, hm, _, hk, _⟩ :=
      KeyboardAdapter.Update_spec
        ((((k.Connect io mb fresh).setIOBus io1).setMainBus mb1).setKeyboardInBus kb1) mb1 io1
        ⟨false⟩ rfl rfl rfl
    have hidle : ((((k.Connect io mb fresh).setIOBus io1).setMainBus mb1).setKeyboardInBus
        kb1).andGate4.Output = false := hoff
    simp only [hidle, Bool.false_eq_true, if_false] at hm hk
    exact ⟨k1, hU, hm, hk⟩

/-- C18, witness: `Connect` with new gates showing the output false, then the first
`Update` with the data phase on the IOBus, the address word on the main bus and key code
65 pending. -/
theorem C18_starts_unselected_witness :
    gatesOff.andGate4 = false ∧
    ∃ k1, ((((NewKeyboardAdapter.Connect idleLines (NewBus BUS_WIDTH) gatesOff).setIOBus
        scenarioDataPhase).setMainBus keyboardAddress).setKeyboardInBus
          ((NewBus BUS_WIDTH).SetValue 65)).Update = some k1 ∧
      k1.mainBus = some keyboardAddress ∧
      k1.KeyboardInBus = (NewBus BUS_WIDTH).SetValue 65 :=
  ⟨rfl, ((C18_starts_unselected NewKeyboardAdapter idleLines (NewBus BUS_WIDTH)
    gatesOff).2.2.2 rfl).2 scenarioDataPhase keyboardAddress
      ((NewBus BUS_WIDTH).SetValue 65)⟩

/-! ## C19, C20: what the memory bit is latched from -/

/-- C19: when an `Update` of a connected adapter takes the register step (`andGate4` on at
entry) and sees CLOCK_SET=1, DATA_OR_ADDRESS=1, MODE=1, the main bus receives the content
of `KeyboardInBus` and the memory bit becomes the address match of that content (wires 8
to 11 false and wires 12 to 15 true of `KeyboardInBus` as it was before the `Update`); the
main bus present before the `Update` does not enter. -/
theorem C19_memory_bit_from_key_code (k : KeyboardAdapter) (mb : Bus BUS_WIDTH) (io : IOBus) (b : Bit)
    (hmb : k.mainBus = some mb) (hio : k.ioBus = some io) (hbit : k.memoryBit = some b)
    (hfire : k.andGate4.Output = true)
    (hsel : io.clockSet = true ∧ io.dataOrAddress = true ∧ io.mode = true) :
    ∃ k1, k.Update = some k1 ∧ k1.mainBus = some k.KeyboardInBus ∧
      k1.memoryBit = some ⟨!k.KeyboardInBus.wires 8 && !k.KeyboardInBus.wires 9 &&
        !k.KeyboardInBus.wires 10 && !k.KeyboardInBus.wires 11 &&
        k.KeyboardInBus.wires 12 && k.KeyboardInBus.wires 13 &&
        k.KeyboardInBus.wires 14 && k.KeyboardInBus.wires 15⟩ := by
  obtain ⟨s1, s2, s3⟩ := hsel
  obtain ⟨k1, hU, hm, _, _, _, hb1, _⟩ := KeyboardAdapter.Update_spec k mb io b hmb hio hbit
  simp only [hfire, if_true] at hm hb1
  refine ⟨k1, hU, hm, ?_⟩
  rw [hb1]
  simp [selectSignal, s1, s2, s3, Bit.Update, addressMatch]

/-- C19, witness: the selected adapter with key code 65 pending, the address word on the
main bus and the select lines on the IOBus: the main bus before the `Update` matches the
address, the key code does not, and the memory bit becomes false. -/
theorem C19_memory_bit_from_key_code_witness :
    addressMatch keyboardAddress = true ∧
    ((selectedAdapter 65).setIOBus selectLines).mainBus = some keyboardAddress ∧
    ∃ k1, ((selectedAdapter 65).setIOBus selectLines).Update = some k1 ∧
      k1.memoryBit = some ⟨false⟩ := by
  obtain ⟨k1, hU, _, hb⟩ :=
    C19_memory_bit_from_key_code ((selectedAdapter 65).setIOBus selectLines) keyboardAddress
      selectLines ⟨true⟩ rfl rfl rfl rfl (by decide)
  exact ⟨by decide, rfl, k1, hU, by rw [hb]; rfl⟩

/-- C20: two runs of `Update` from the same connected adapter state with the read-enable
gate off at entry, the same IOBus lines, and main-bus words that agree on wires 8 to 15
end with the same memory bit and the same outputs of `andGate1` to `andGate4` and of all
the NOT gates: main-bus wires 0 to 7 do not enter the adapter's selection. -/
theorem C20_selection_ignores_low_wires (k : KeyboardAdapter) (mb : Bus BUS_WIDTH) (io : IOBus) (b : Bit)
    (mb1 mb2 : Bus BUS_WIDTH)
    (hmb : k.mainBus = some mb) (hio : k.ioBus = some io) (hbit : k.memoryBit = some b)
    (hidle : k.andGate4.Output = false)
    (hagree : ∀ i : Fin BUS_WIDTH, 8 ≤ i.val → mb1.wires i = mb2.wires i) :
    ∃ k1 k2, (k.setMainBus mb1).Update = some k1 ∧ (k.setMainBus mb2).Update = some k2 ∧
      k1.memoryBit = k2.memoryBit ∧
      k1.andGate1 = k2.andGate1 ∧ k1.andGate2 = k2.andGate2 ∧
      k1.andGate3 = k2.andGate3 ∧ k1.andGate4 = k2.andGate4 ∧
      k1.notGatesForAndGate1 = k2.notGatesForAndGate1 ∧
      k1.notGatesForAndGate3 = k2.notGatesForAndGate3 := by
  have e1 := KeyboardAdapter.update_eq (k.setMainBus mb1) mb1 io b
    (by simp [KeyboardAdapter.setMainBus, hmb]) hio hbit
  have e2 := KeyboardAdapter.update_eq (k.setMainBus mb2) mb2 io b
    (by simp [KeyboardAdapter.setMainBus, hmb]) hio hbit
  rw [← KeyboardAdapter.Update_idle _ (show (k.setMainBus mb1).andGate4.Output = false from hidle)]
    at e1
  rw [← KeyboardAdapter.Update_idle _ (show (k.setMainBus mb2).andGate4.Output = false from hidle)]
    at e2
  have a8 := hagree 8 (by decide)
  have a9 := hagree 9 (by decide)
  have a10 := hagree 10 (by decide)
  have a11 := hagree 11 (by decide)
  have a12 := hagree 12 (by decide)
  have a13 := hagree 13 (by decide)
  have a14 := hagree 14 (by decide)
  have a15 := hagree 15 (by decide)
  refine ⟨_, _, e1, e2, ?_⟩
  simp [a8, a9, a10, a11, a12, a13, a14, a15, KeyboardAdapter.setMainBus]


/-- C20, witness: the address word, with wires 0 to 7 all false and with wires 0 to 7 all
true, on a freshly connected adapter. -/
theorem C20_selection_ignores_low_wires_witness :
    keyboardAddress.toNat ≠ keyboardAddressLowSet.toNat ∧
    ∃ k1 k2, ((freshAdapter 65).setMainBus keyboardAddress).Update = some k1 ∧
      ((freshAdapter 65).setMainBus keyboardAddressLowSet).Update = some k2 ∧
      k1.memoryBit = k2.memoryBit ∧
      k1.andGate1 = k2.andGate1 ∧ k1.andGate2 = k2.andGate2 ∧
      k1.andGate3 = k2.andGate3 ∧ k1.andGate4 = k2.andGate4 ∧
      k1.notGatesForAndGate1 = k2.notGatesForAndGate1 ∧
      k1.notGatesForAndGate3 = k2.notGatesForAndGate3 :=
  ⟨by decide, C20_selection_ignores_low_wires (freshAdapter 65) (NewBus BUS_WIDTH) idleLines
    ⟨false⟩ keyboardAddress keyboardAddressLowSet rfl rfl rfl rfl (by decide)⟩

/-! ## C21: the table of key-up events -/

set_option maxRecDepth 100000 in
/-- The table `up_key_presses` is the list of the key-up events for the codes 1 to
1023, in increasing order. -/
theorem up_key_presses_eq_range :
    up_key_presses =
      (List.range 1023).map fun (i : Nat) => KeyPress.mk ((i : Int) + 1) false := by
  decide

/-- A run of `Run` over key-up events only serves them all and leaves the keyboard as it
was. -/
theorem Keyboard.Run_key_ups (keys : List KeyPress) (h : ∀ key ∈ keys, key.IsDown = false)
    (k : Keyboard) : k.Run (keys.map Selected.key) = RunResult.waiting k := by
  induction keys with
  | nil => rfl
  | cons key rest ih =>
    have hk : key.IsDown = false := h key (List.mem_cons_self _ _)
    have hr : ∀ x ∈ rest, x.IsDown = false := fun x hx => h x (List.mem_cons_of_mem _ hx)
    simp only [List.map_cons, Keyboard.Run, Keyboard.onKey, hk]
    simpa using ih hr

/-- The loop of `Run` over a queue of key-up events, with no quit signal, empties the
queue in as many ticks as there are events and leaves the keyboard as it was. -/
theorem Keyboard.runTicks_key_ups (keys : List KeyPress)
    (h : ∀ key ∈ keys, key.IsDown = false) (k : Keyboard) :
    k.runTicks keys (List.replicate keys.length (false, false)) =
      TickResult.waiting k [] := by
  induction keys with
  | nil => rfl
  | cons key rest ih =>
    have hk : key.IsDown = false := h key (List.mem_cons_self _ _)
    have hr : ∀ x ∈ rest, x.IsDown = false := fun x hx => h x (List.mem_cons_of_mem _ hx)
    have ho : k.onKey key = some k := by simp [Keyboard.onKey, hk]
    have ht : k.tick false false (key :: rest) = TickResult.waiting k rest := by
      unfold Keyboard.tick
      simp [Keyboard.select, ho]
    rw [List.length_cons, List.replicate_succ, Keyboard.runTicks, ht]
    exact ih hr

/-- Every entry of `up_key_presses` is a key-up event. -/
theorem up_key_presses_all_up : ∀ key ∈ up_key_presses, key.IsDown = false := by
  rw [up_key_presses_eq_range]
  intro key hkey
  simp only [List.mem_map] at hkey
  obtain ⟨i, _, rfl⟩ := hkey
  rfl

/-- C21: the table `up_key_presses` has exactly 1023 entries and entry `i`
(`0 ≤ i < 1023`) is `KeyPress{i+1, false}`; handling its entries in order, as the events
received by `Run` or as the queue of key presses served tick after tick, leaves the
keyboard, hence `outBus`, unchanged. -/
theorem C21_up_key_presses_table :
    up_key_presses.length = 1023 ∧
    (∀ i : Nat, i < 1023 → up_key_presses[i]? = some (KeyPress.mk ((i : Int) + 1) false)) ∧
    (∀ k : Keyboard, k.Run (up_key_presses.map Selected.key) = RunResult.waiting k) ∧
    (∀ k : Keyboard,
      k.runTicks up_key_presses (List.replicate 1023 (false, false)) =
        TickResult.waiting k []) := by
  refine ⟨?_, ?_, ?_, ?_⟩
  · rw [up_key_presses_eq_range]; simp
  · intro i hi
    rw [up_key_presses_eq_range]
    simp [List.getElem?_map, List.getElem?_range hi]
  · intro k
    exact Keyboard.Run_key_ups up_key_presses up_key_presses_all_up k
  · intro k
    have h := Keyboard.runTicks_key_ups up_key_presses up_key_presses_all_up k
    have hl : up_key_presses.length = 1023 := by rw [up_key_presses_eq_range]; simp
    rw [hl] at h
    exact h


/-- C21, witness: the first and the last entry of the table. -/
theorem C21_up_key_presses_table_witness :
    up_key_presses[0]? = some (KeyPress.mk 1 false) ∧
    up_key_presses[1022]? = some (KeyPress.mk 1023 false) :=
  ⟨C21_up_key_presses_table.2.1 0 (by decide),
    C21_up_key_presses_table.2.1 1022 (by decide)⟩

end SimpleComputer
